import Mathlib

/-!
Shallow embedding of the `AudioDetector` class of `src/audio-detector.js`
(the YIN / spectral-flux / ADSR detector, the second class in the file).

Conventions used throughout:
* JavaScript numbers are modelled by exact rationals where the source only
  performs field operations and comparisons (the YIN pitch estimator, the
  harmonic validator, hysteresis counters), and by real numbers where the
  source takes square roots or logarithms (RMS envelope, spectral flux,
  frequency-to-note mapping).
* The IEEE special values NaN, positive and negative infinity, which the
  source can produce
  in the YIN parabolic interpolation, are modelled explicitly by the type
  `JSNum` (with +0 and -0 conflated into `fin 0`); an entry of the CMNDF
  array that would be NaN (zero running sum) or undefined (out of bounds)
  is modelled as `none`, and every JS comparison involving NaN or undefined
  is false, which `optLtQ`/`optLt`/`optGeQ` mirror.
* `Math.round` rounds half toward positive infinity, `x % n` on integers
  truncates toward zero (`Int.tmod`), `Math.floor` on an integer quotient
  is flooring division.
-/

namespace Fretlearner

/-- Constructor constant `YIN_THRESHOLD = 0.15`. -/
def YIN_THRESHOLD : ℚ := 3 / 20

/-- Constructor constant `MIN_FREQUENCY = 50`. -/
def MIN_FREQUENCY : ℚ := 50

/-- Constructor constant `MAX_FREQUENCY = 2000`. -/
def MAX_FREQUENCY : ℚ := 2000

/-- Constructor constant `ONSET_THRESHOLD = 0.3`. -/
def ONSET_THRESHOLD : ℚ := 3 / 10

/-- Constructor constant `FLUX_HISTORY_SIZE = 5`. -/
def FLUX_HISTORY_SIZE : ℕ := 5

/-- Constructor constant `ATTACK_THRESHOLD = 0.02`. -/
def ATTACK_THRESHOLD : ℚ := 1 / 50

/-- Constructor constant `RELEASE_THRESHOLD = 0.01`. -/
def RELEASE_THRESHOLD : ℚ := 1 / 100

/-- Constructor constant `envelopeSmoothing = 0.3`. -/
def envelopeSmoothing : ℚ := 3 / 10

/-- Constructor constant `ATTACK_HYSTERESIS_FRAMES = 3`. -/
def ATTACK_HYSTERESIS_FRAMES : ℕ := 3

/-- Constructor constant `RELEASE_HYSTERESIS_FRAMES = 5`. -/
def RELEASE_HYSTERESIS_FRAMES : ℕ := 5

/-- Constructor constant `MIN_NOTE_DURATION = 100` (ms). -/
def MIN_NOTE_DURATION : ℤ := 100

/-- Constructor constant `MIN_HARMONIC_CONFIDENCE = 0.5`. -/
def MIN_HARMONIC_CONFIDENCE : ℚ := 1 / 2

/-- Constructor constant `COOLDOWN_DURATION = 50` (frames). -/
def COOLDOWN_DURATION : ℕ := 50

/-- Constructor constant `A4_FREQUENCY = 440`. -/
def A4_FREQUENCY : ℝ := 440

/-- Constructor constant `A4_MIDI_NUMBER = 69`. -/
def A4_MIDI_NUMBER : ℤ := 69

/-- Constructor constant `NOTE_NAMES` (sharps only). -/
def NOTE_NAMES : List String :=
  ["C", "C#", "D", "D#", "E", "F"] ++ ["F#", "G", "G#", "A", "A#", "B"]

/-- JavaScript `Math.round` on a real argument: nearest integer, halves
toward positive infinity. -/
noncomputable def jsRound (x : ℝ) : ℤ := ⌊x + 1 / 2⌋

/-- JavaScript `Math.round` restricted to rational arguments (computable). -/
def jsRoundQ (q : ℚ) : ℤ := ⌊q + 1 / 2⌋

/-- A JavaScript double as produced by the YIN interpolation: an exact
rational, an infinity, or NaN.  `+0` and `-0` are conflated into `fin 0`
(the sign of zero is never observed downstream: the only consumers compare
the value against positive thresholds). -/
inductive JSNum where
  | fin (q : ℚ)
  | posInf
  | negInf
  | nan
deriving DecidableEq

/-- JS addition on `JSNum`. -/
def jsAdd : JSNum → JSNum → JSNum
  | .fin a, .fin b => .fin (a + b)
  | .fin _, .posInf => .posInf
  | .fin _, .negInf => .negInf
  | .posInf, .fin _ => .posInf
  | .negInf, .fin _ => .negInf
  | .posInf, .posInf => .posInf
  | .negInf, .negInf => .negInf
  | .posInf, .negInf => .nan
  | .negInf, .posInf => .nan
  | .nan, _ => .nan
  | _, .nan => .nan

/-- JS negation on `JSNum`. -/
def jsNeg : JSNum → JSNum
  | .fin a => .fin (-a)
  | .posInf => .negInf
  | .negInf => .posInf
  | .nan => .nan

/-- JS subtraction on `JSNum`. -/
def jsSub (a b : JSNum) : JSNum := jsAdd a (jsNeg b)

/-- JS multiplication on `JSNum` (`0 * Infinity` is NaN). -/
def jsMul : JSNum → JSNum → JSNum
  | .fin a, .fin b => .fin (a * b)
  | .fin a, .posInf => if 0 < a then .posInf else if a < 0 then .negInf else .nan
  | .fin a, .negInf => if 0 < a then .negInf else if a < 0 then .posInf else .nan
  | .posInf, .fin b => if 0 < b then .posInf else if b < 0 then .negInf else .nan
  | .negInf, .fin b => if 0 < b then .negInf else if b < 0 then .posInf else .nan
  | .posInf, .posInf => .posInf
  | .negInf, .negInf => .posInf
  | .posInf, .negInf => .negInf
  | .negInf, .posInf => .negInf
  | .nan, _ => .nan
  | _, .nan => .nan

/-- JS division on `JSNum`.  A nonzero finite numerator over an exact zero
denominator gives a signed infinity (the denominators arising in the source
are exact-zero float sums, whose sign is `+0`); `0 / 0` is NaN; a finite
numerator over an infinite denominator gives `0`. -/
def jsDiv : JSNum → JSNum → JSNum
  | .fin a, .fin b =>
      if b = 0 then (if 0 < a then .posInf else if a < 0 then .negInf else .nan)
      else .fin (a / b)
  | .fin _, .posInf => .fin 0
  | .fin _, .negInf => .fin 0
  | .posInf, .fin b => if 0 ≤ b then .posInf else .negInf
  | .negInf, .fin b => if 0 ≤ b then .negInf else .posInf
  | .posInf, .posInf => .nan
  | .posInf, .negInf => .nan
  | .negInf, .posInf => .nan
  | .negInf, .negInf => .nan
  | .nan, _ => .nan
  | _, .nan => .nan

/-- Is a `JSNum` a finite number? -/
def JSNum.isFinite : JSNum → Bool
  | .fin _ => true
  | _ => false

/-- A CMNDF array entry (`some` rational, or `none` for NaN/undefined)
injected into `JSNum` for use in arithmetic, where NaN and undefined
behave identically. -/
def ofOpt : Option ℚ → JSNum
  | some q => .fin q
  | none => .nan

/-- JS comparison `o < c` where `o` may be NaN/undefined (then false). -/
def optLtQ : Option ℚ → ℚ → Bool
  | some q, c => decide (q < c)
  | none, _ => false

/-- JS comparison `a < b` where either side may be NaN/undefined. -/
def optLt : Option ℚ → Option ℚ → Bool
  | some x, some y => decide (x < y)
  | some _, none => false
  | none, _ => false

/-- JS comparison `o >= c` where `o` may be NaN/undefined (then false). -/
def optGeQ : Option ℚ → ℚ → Bool
  | some q, c => decide (c ≤ q)
  | none, _ => false

/-- `Math.floor(bufferSize / 2)` for the YIN buffer. -/
def halfSize (buf : List ℚ) : ℕ := buf.length / 2

/-- YIN step 1: difference function
`d(tau) = sum over i < halfSize of (buffer[i] - buffer[i+tau])^2`. -/
def differenceFunction (buf : List ℚ) (tau : ℕ) : ℚ :=
  (((List.range (halfSize buf)).map
    (fun i => (buf.getD i 0 - buf.getD (i + tau) 0) ^ 2))).sum

/-- Running sum `d(1) + ... + d(tau)` used by the CMNDF normalisation. -/
def diffRunningSum (buf : List ℚ) (tau : ℕ) : ℚ :=
  (((List.range tau).map (fun j => differenceFunction buf (j + 1)))).sum

/-- YIN step 2: cumulative mean normalized difference function.
`cmndf[0] = 1`; for `tau >= 1`, `cmndf[tau] = d(tau) / (runningSum / tau)`.
`none` encodes both an out-of-bounds read (JS `undefined`) and the NaN
produced when the running sum is zero (then `d(tau)` is zero as well, and
JS computes `0 / 0`). -/
def cmndf (buf : List ℚ) (tau : ℕ) : Option ℚ :=
  if halfSize buf ≤ tau then none
  else if tau = 0 then some 1
  else if diffRunningSum buf tau = 0 then none
  else some (differenceFunction buf tau / (diffRunningSum buf tau / (tau : ℚ)))

/-- The inner loop of YIN step 3: from an accepted `tau`, advance while the
next CMNDF value keeps strictly decreasing (JS comparisons, so never into
NaN/undefined), stopping before `maxTau`. -/
def yinDescend (cm : ℕ → Option ℚ) (maxTau : ℕ) : ℕ → ℕ → ℕ
  | 0, tau => tau
  | fuel + 1, tau =>
      if tau + 1 < maxTau ∧ optLt (cm (tau + 1)) (cm tau) = true then
        yinDescend cm maxTau fuel (tau + 1)
      else tau

/-- The outer loop of YIN step 3: scan `tau` from `minTau` upward looking
for the first CMNDF value below the threshold, then descend to the local
minimum and stop; if the scan reaches `maxTau` the returned `tau` is
`>= maxTau`. -/
def yinSearch (cm : ℕ → Option ℚ) (maxTau : ℕ) : ℕ → ℕ → ℕ
  | 0, tau => tau
  | fuel + 1, tau =>
      if tau < maxTau then
        if optLtQ (cm tau) YIN_THRESHOLD = true then yinDescend cm maxTau maxTau tau
        else yinSearch cm maxTau fuel (tau + 1)
      else tau

/-- YIN step 4 as written in the source: parabolic interpolation
`betterTau = tau + (s2 - s0) / (2 * (2*s1 - s2 - s0))`, attempted whenever
`0 < tau` and `tau < cmndf.length - 1`, with no guard on the quadratic
coefficient: a zero denominator flows into the JS division. -/
def parabolicStep (halfLen tau : ℕ) (s0 s1 s2 : Option ℚ) : JSNum :=
  if 0 < tau ∧ tau + 1 < halfLen then
    jsAdd (.fin (tau : ℚ))
      (jsDiv (jsSub (ofOpt s2) (ofOpt s0))
        (jsMul (.fin 2)
          (jsSub (jsSub (jsMul (.fin 2) (ofOpt s1)) (ofOpt s2)) (ofOpt s0))))
  else .fin (tau : ℚ)

/-- The record returned by a successful `yinPitch` call. -/
structure YinResult where
  frequency : JSNum
  confidence : JSNum
  tau : JSNum
  cmndfAtTau : Option ℚ
deriving DecidableEq

/-- `minTau = Math.floor(sampleRate / MAX_FREQUENCY)`. -/
def yinMinTau (sampleRate : ℚ) : ℕ := (⌊sampleRate / MAX_FREQUENCY⌋).toNat

/-- `maxTau = Math.floor(sampleRate / MIN_FREQUENCY)`. -/
def yinMaxTau (sampleRate : ℚ) : ℕ := (⌊sampleRate / MIN_FREQUENCY⌋).toNat

/-- The value of `tau` after the YIN step 3 threshold scan. -/
def yinTau (buf : List ℚ) (sampleRate : ℚ) : ℕ :=
  yinSearch (cmndf buf) (yinMaxTau sampleRate) (yinMaxTau sampleRate) (yinMinTau sampleRate)

/-- The refined `betterTau` of YIN step 4. -/
def yinBetterTau (buf : List ℚ) (sampleRate : ℚ) : JSNum :=
  parabolicStep (halfSize buf) (yinTau buf sampleRate)
    (cmndf buf (yinTau buf sampleRate - 1))
    (cmndf buf (yinTau buf sampleRate))
    (cmndf buf (yinTau buf sampleRate + 1))

/-- `AudioDetector.yinPitch(buffer, sampleRate)`. -/
def yinPitch (buf : List ℚ) (sampleRate : ℚ) : Option YinResult :=
  if yinMaxTau sampleRate ≤ yinTau buf sampleRate ∨
      optGeQ (cmndf buf (yinTau buf sampleRate)) YIN_THRESHOLD = true then none
  else
    some { frequency := jsDiv (.fin sampleRate) (yinBetterTau buf sampleRate)
           confidence := jsSub (.fin 1) (ofOpt (cmndf buf (yinTau buf sampleRate)))
           tau := yinBetterTau buf sampleRate
           cmndfAtTau := cmndf buf (yinTau buf sampleRate) }

/-- The body of the spectral-flux sum: squared positive normalized
differences `((spectrum[i] - previousSpectrum[i]) / 255)^2`.  A length
mismatch reads `undefined` from the previous spectrum, the difference is
NaN, and the `diff > 0` test fails, contributing nothing. -/
def fluxSumSq (prev cur : List ℕ) : ℚ :=
  (((List.range cur.length).map (fun i =>
    match prev.get? i with
    | some v =>
        let diff : ℚ := ((cur.getD i 0 : ℚ) - (v : ℚ)) / 255
        if 0 < diff then diff ^ 2 else 0
    | none => 0))).sum

/-- `AudioDetector.calculateSpectralFlux`, acting on the
`(previousSpectrum, fluxHistory)` part of the state.  Returns the flux
together with the updated previous spectrum and history.  On the first
tick (no previous spectrum) it records the spectrum, returns `0`, and
pushes nothing. -/
noncomputable def calculateSpectralFlux (prev : Option (List ℕ)) (hist : List ℝ)
    (spectrum : List ℕ) : ℝ × Option (List ℕ) × List ℝ :=
  match prev with
  | none => (0, some spectrum, hist)
  | some p =>
      let flux := Real.sqrt ((fluxSumSq p spectrum : ℚ) : ℝ)
      let h1 := hist ++ [flux]
      let h2 := if FLUX_HISTORY_SIZE < h1.length then h1.tail else h1
      (flux, some spectrum, h2)

/-- The harmonic loop of `calculateHarmonicConfidence`: for `h = 1..5`,
stop early past Nyquist or past the end of the spectrum; otherwise
accumulate `peakMag * (1/h)` and the weight `1/h`. -/
def harmonicAccum (spectrum : List ℕ) (f binWidth nyquist : ℚ) :
    ℕ → ℕ → ℚ × ℚ
  | 0, _ => (0, 0)
  | fuel + 1, h =>
      let harmonicFreq := f * (h : ℚ)
      if nyquist < harmonicFreq then (0, 0)
      else
        let bin := (jsRoundQ (harmonicFreq / binWidth)).toNat
        if spectrum.length ≤ bin then (0, 0)
        else
          let mag : ℚ := (spectrum.getD bin 0 : ℚ) / 255
          let leftMag : ℚ := if 0 < bin then (spectrum.getD (bin - 1) 0 : ℚ) / 255 else 0
          let rightMag : ℚ :=
            if bin + 1 < spectrum.length then (spectrum.getD (bin + 1) 0 : ℚ) / 255 else 0
          let peakMag := max mag (max leftMag rightMag)
          let rest := harmonicAccum spectrum f binWidth nyquist fuel (h + 1)
          (rest.1 + peakMag * (1 / (h : ℚ)), rest.2 + 1 / (h : ℚ))

/-- `AudioDetector.calculateHarmonicConfidence(spectrum, fundamentalFreq)`,
with the ambient `sampleRate` and `fftSize` made explicit. -/
def calculateHarmonicConfidence (spectrum : List ℕ) (fundamentalFreq : ℚ)
    (sampleRate : ℚ) (fftSize : ℕ) : ℚ :=
  let binWidth := sampleRate / (fftSize : ℚ)
  let acc := harmonicAccum spectrum fundamentalFreq binWidth (sampleRate / 2) 5 1
  if 0 < acc.2 then min 1 (acc.1 / acc.2) else 0

/-- The record returned by `frequencyToNote`.  The `name` is `none` when
the JS array read `NOTE_NAMES[noteIndex]` would be `undefined` (negative
index, possible only for extremely low frequencies). -/
structure NoteInfo where
  name : Option String
  octave : ℤ
  frequency : ℝ
  cents : ℤ
  midiNumber : ℤ

/-- `midiNumber = Math.round(A4_MIDI_NUMBER + 12 * log2(f / A4_FREQUENCY))`. -/
noncomputable def midiNumberOf (frequency : ℝ) : ℤ :=
  jsRound ((A4_MIDI_NUMBER : ℝ) + 12 * Real.logb 2 (frequency / A4_FREQUENCY))

/-- `exactFrequency = A4_FREQUENCY * 2^((midiNumber - A4_MIDI_NUMBER) / 12)`. -/
noncomputable def exactFrequencyOf (frequency : ℝ) : ℝ :=
  A4_FREQUENCY * (2 : ℝ) ^ (((midiNumberOf frequency - A4_MIDI_NUMBER : ℤ) : ℝ) / 12)

/-- `cents = Math.round(1200 * log2(f / exactFrequency))`. -/
noncomputable def centsOf (frequency : ℝ) : ℤ :=
  jsRound (1200 * Real.logb 2 (frequency / exactFrequencyOf frequency))

/-- `AudioDetector.frequencyToNote(frequency)`: `null` for `f <= 0`,
otherwise the nearest-semitone note with signed cents deviation.
`noteIndex = midiNumber % 12` (JS `%` truncates toward zero) and
`octave = Math.floor(midiNumber / 12) - 1`. -/
noncomputable def frequencyToNote (frequency : ℝ) : Option NoteInfo :=
  if frequency ≤ 0 then none
  else
    some { name := if 0 ≤ Int.tmod (midiNumberOf frequency) 12 then
                     NOTE_NAMES.get? (Int.tmod (midiNumberOf frequency) 12).toNat
                   else none
           octave := Int.fdiv (midiNumberOf frequency) 12 - 1
           frequency := frequency
           cents := centsOf frequency
           midiNumber := midiNumberOf frequency }

/-- The four ADSR states of the note lifecycle. -/
inductive NoteState where
  | SILENCE
  | ATTACK
  | SUSTAIN
  | RELEASE
deriving DecidableEq

/-- The object stored in `this.currentNote`: the spread of a
`frequencyToNote` result plus the two confidences.  `note = none` encodes
the (unreachable at the call sites) spread of `null`. -/
structure CapturedNote where
  note : Option NoteInfo
  confidence : JSNum
  harmonicConfidence : ℚ

/-- The mutable fields of `AudioDetector` that the detection pipeline
reads or writes. -/
structure EngineState where
  isDetecting : Bool
  previousSpectrum : Option (List ℕ)
  spectralFlux : ℝ
  fluxHistory : List ℝ
  noteState : NoteState
  envelope : ℝ
  peakEnvelope : ℝ
  currentNote : Option CapturedNote
  noteStartTime : ℤ
  framesSinceAttack : ℕ
  framesSinceRelease : ℕ
  harmonicConfidence : ℚ
  cooldownFrames : ℕ

/-- The field values installed by the `AudioDetector` constructor. -/
def initState : EngineState :=
  { isDetecting := false
    previousSpectrum := none
    spectralFlux := 0
    fluxHistory := []
    noteState := .SILENCE
    envelope := 0
    peakEnvelope := 0
    currentNote := none
    noteStartTime := 0
    framesSinceAttack := 0
    framesSinceRelease := 0
    harmonicConfidence := 0
    cooldownFrames := 0 }

/-- `AudioDetector.resetState()`: zeroes the detection pipeline state but
not `cooldownFrames` (and not `isDetecting`). -/
def resetState (st : EngineState) : EngineState :=
  { st with
    noteState := .SILENCE
    currentNote := none
    envelope := 0
    peakEnvelope := 0
    spectralFlux := 0
    previousSpectrum := none
    fluxHistory := []
    framesSinceAttack := 0
    framesSinceRelease := 0
    harmonicConfidence := 0 }

/-- `AudioDetector.stop()`: clears `isDetecting`, releases the audio
resources (outside this model), and calls `resetState()`. -/
def stop (st : EngineState) : EngineState :=
  resetState { st with isDetecting := false }

/-- `AudioDetector.clearRecentNotes()` (the cooldown trigger): starts the
cooldown countdown and calls `resetState()`. -/
def clearRecentNotes (st : EngineState) : EngineState :=
  resetState { st with cooldownFrames := COOLDOWN_DURATION }

/-- The result object of a successful `start()`. -/
structure StartResult where
  sampleRate : ℚ
  bufferSize : ℕ
deriving DecidableEq

/-- `AudioDetector.start(deviceId)`: if a session is already running it
warns and returns without a result and without touching the state;
otherwise it acquires the stream (external), sets `fftSize = 4096`, marks
detection running, and returns `{sampleRate, bufferSize}`. -/
def start (st : EngineState) (sampleRate : ℚ) : Option StartResult × EngineState :=
  if st.isDetecting then (none, st)
  else (some ⟨sampleRate, 4096⟩, { st with isDetecting := true })

/-- The average of the flux history (`0` when empty), as in
`updateNoteState`. -/
noncomputable def avgFlux (hist : List ℝ) : ℝ :=
  if hist.length = 0 then 0 else hist.sum / (hist.length : ℝ)

/-- `adaptiveOnsetThreshold = max(ONSET_THRESHOLD, avgFlux * 1.5)`. -/
noncomputable def adaptiveOnsetThreshold (hist : List ℝ) : ℝ :=
  max ((ONSET_THRESHOLD : ℚ) : ℝ) (avgFlux hist * (3 / 2))

/-- The capture of `this.currentNote` performed at the ATTACK-to-SUSTAIN
transition and during SUSTAIN refinement. -/
noncomputable def captureNote (p : ℚ) (yinConfidence : JSNum) (harm : ℚ) : CapturedNote :=
  { note := frequencyToNote ((p : ℚ) : ℝ)
    confidence := yinConfidence
    harmonicConfidence := harm }

open Classical in
/-- `AudioDetector.updateNoteState(detectedPitch, yinConfidence)`, with the
monotonic clock sample `now` passed explicitly in place of `Date.now()`.
`detectedPitch = none` models `null`; at both call sites a present pitch
lies in `[MIN_FREQUENCY, MAX_FREQUENCY]`, hence is nonzero and truthy. -/
noncomputable def updateNoteState (st : EngineState) (detectedPitch : Option ℚ)
    (yinConfidence : JSNum) (now : ℤ) : EngineState :=
  match st.noteState with
  | .SILENCE =>
      if adaptiveOnsetThreshold st.fluxHistory < st.spectralFlux ∧
          ((ATTACK_THRESHOLD : ℚ) : ℝ) < st.envelope then
        if ATTACK_HYSTERESIS_FRAMES ≤ st.framesSinceAttack + 1 then
          { st with noteState := .ATTACK
                    peakEnvelope := st.envelope
                    noteStartTime := now
                    framesSinceAttack := 0 }
        else { st with framesSinceAttack := st.framesSinceAttack + 1 }
      else { st with framesSinceAttack := 0 }
  | .ATTACK =>
      let st1 := if st.peakEnvelope < st.envelope then { st with peakEnvelope := st.envelope } else st
      if st1.envelope < st1.peakEnvelope * (19 / 20) ∧
          ((RELEASE_THRESHOLD : ℚ) : ℝ) < st1.envelope then
        let st2 := { st1 with noteState := .SUSTAIN }
        match detectedPitch with
        | some p =>
            if MIN_HARMONIC_CONFIDENCE < st2.harmonicConfidence then
              { st2 with currentNote := some (captureNote p yinConfidence st2.harmonicConfidence) }
            else st2
        | none => st2
      else st1
  | .SUSTAIN =>
      let st1 :=
        match detectedPitch with
        | some p =>
            if MIN_HARMONIC_CONFIDENCE < st.harmonicConfidence then
              let accept :=
                match st.currentNote with
                | none => True
                | some cn =>
                    match cn.note with
                    | some ni => |((p : ℚ) : ℝ) - ni.frequency| < 20
                    | none => False
              if accept then
                { st with currentNote := some (captureNote p yinConfidence st.harmonicConfidence) }
              else st
            else st
        | none => st
      if st1.envelope < ((RELEASE_THRESHOLD : ℚ) : ℝ) then
        if RELEASE_HYSTERESIS_FRAMES ≤ st1.framesSinceRelease + 1 then
          { st1 with noteState := .RELEASE, framesSinceRelease := 0 }
        else { st1 with framesSinceRelease := st1.framesSinceRelease + 1 }
      else { st1 with framesSinceRelease := 0 }
  | .RELEASE =>
      let st1 :=
        if st.envelope < ((RELEASE_THRESHOLD : ℚ) : ℝ) * (1 / 2) then
          if MIN_NOTE_DURATION ≤ now - st.noteStartTime then
            { st with noteState := .SILENCE, currentNote := none }
          else st
        else st
      if adaptiveOnsetThreshold st.fluxHistory < st1.spectralFlux ∧
          ((ATTACK_THRESHOLD : ℚ) : ℝ) < st1.envelope then
        { st1 with noteState := .SILENCE }
      else st1

/-- The note event delivered to `onNoteDetected` (the object spread of the
current note plus the state tag). -/
structure NoteEvent where
  note : Option NoteInfo
  confidence : JSNum
  harmonicConfidence : ℚ
  state : NoteState

/-- `AudioDetector.emitNoteDetection()`: emits the current note only when
one exists and the state is SUSTAIN or ATTACK; otherwise emits `null`
(modelled `none`). -/
def emitNoteDetection (st : EngineState) : Option NoteEvent :=
  match st.currentNote with
  | some cn =>
      if st.noteState = .SUSTAIN ∨ st.noteState = .ATTACK then
        some { note := cn.note
               confidence := cn.confidence
               harmonicConfidence := cn.harmonicConfidence
               state := st.noteState }
      else none
  | none => none

/-- One tick's worth of input from the analyser: the time-domain window,
the byte frequency spectrum, and the `Date.now()` sample. -/
structure Frame where
  timeBuffer : List ℚ
  spectrum : List ℕ
  now : ℤ

/-- Sum of squares of the time-domain window. -/
def sumSq (buf : List ℚ) : ℚ := ((buf.map (fun x => x ^ 2))).sum

/-- The instantaneous RMS envelope `sqrt(sum / bufferLength)`. -/
noncomputable def rmsOf (buf : List ℚ) : ℝ :=
  Real.sqrt ((sumSq buf / (buf.length : ℚ) : ℚ) : ℝ)

/-- The range gate applied to the YIN result in `detectPitch`
(`pitchResult && frequency >= MIN_FREQUENCY && frequency <= MAX_FREQUENCY`);
otherwise `detectedPitch` stays `null` and `yinConfidence` stays `0`.
JS comparisons against a NaN or infinite frequency are false. -/
def pitchInRange : Option YinResult → Option ℚ × JSNum
  | some r =>
      match r.frequency with
      | .fin q =>
          if MIN_FREQUENCY ≤ q ∧ q ≤ MAX_FREQUENCY then (some q, r.confidence)
          else (none, .fin 0)
      | _ => (none, .fin 0)
  | none => (none, .fin 0)

/-- Steps 1 and 2 of `detectPitch`: fold the frame's RMS into the smoothed
envelope and run the spectral-flux update.  These run on every tick of a
running detector, cooldown or not. -/
noncomputable def envFluxUpdate (st : EngineState) (f : Frame) : EngineState :=
  { st with
    envelope := ((envelopeSmoothing : ℚ) : ℝ) * rmsOf f.timeBuffer +
      (1 - ((envelopeSmoothing : ℚ) : ℝ)) * st.envelope
    spectralFlux := (calculateSpectralFlux st.previousSpectrum st.fluxHistory f.spectrum).1
    previousSpectrum := (calculateSpectralFlux st.previousSpectrum st.fluxHistory f.spectrum).2.1
    fluxHistory := (calculateSpectralFlux st.previousSpectrum st.fluxHistory f.spectrum).2.2 }

/-- Step 4 of `detectPitch`: the harmonic confidence assigned for this
tick (0 when no in-range pitch was detected). -/
def harmOf (f : Frame) (sampleRate : ℚ) : ℚ :=
  match (pitchInRange (yinPitch f.timeBuffer sampleRate)).1 with
  | some p => calculateHarmonicConfidence f.spectrum p sampleRate f.timeBuffer.length
  | none => 0

/-- Steps 3 to 5 of `detectPitch`: the state after YIN detection, harmonic
confidence assignment and the ADSR state machine. -/
noncomputable def tailState (sampleRate : ℚ) (st1 : EngineState) (f : Frame) : EngineState :=
  updateNoteState { st1 with harmonicConfidence := harmOf f sampleRate }
    (pitchInRange (yinPitch f.timeBuffer sampleRate)).1
    (pitchInRange (yinPitch f.timeBuffer sampleRate)).2 f.now

/-- The non-cooldown remainder of a tick (steps 3 to 6 of `detectPitch`),
run when the countdown is zero. -/
noncomputable def normalDetectTail (sampleRate : ℚ) (st1 : EngineState) (f : Frame) :
    EngineState × Option NoteEvent :=
  (tailState sampleRate st1 f, emitNoteDetection (tailState sampleRate st1 f))

/-- `AudioDetector.detectPitch()`, one synchronous tick: envelope update,
spectral flux, cooldown bypass, YIN pitch, harmonic confidence, state
machine, emission.  Returns the new state and the emitted note event
(`none` both for an emitted `null` and for a not-running detector). -/
noncomputable def detectPitch (sampleRate : ℚ) (st : EngineState) (f : Frame) :
    EngineState × Option NoteEvent :=
  if st.isDetecting = false then (st, none)
  else
    if 0 < (envFluxUpdate st f).cooldownFrames then
      ({ envFluxUpdate st f with cooldownFrames := (envFluxUpdate st f).cooldownFrames - 1 },
       none)
    else normalDetectTail sampleRate (envFluxUpdate st f) f

/-- Iterated ticks, collecting the emitted events. -/
noncomputable def runTicks (sampleRate : ℚ) : EngineState → List Frame →
    EngineState × List (Option NoteEvent)
  | st, [] => (st, [])
  | st, f :: fs =>
      let r := detectPitch sampleRate st f
      let rest := runTicks sampleRate r.1 fs
      (rest.1, r.2 :: rest.2)

/-- Engine states reachable from the constructor through the public
control surface (`start`, `stop`, `clearRecentNotes`) and ticks. -/
inductive Reachable : EngineState → Prop where
  | init : Reachable initState
  | start (st : EngineState) (sr : ℚ) : Reachable st → Reachable (start st sr).2
  | tick (st : EngineState) (sr : ℚ) (f : Frame) : Reachable st → Reachable (detectPitch sr st f).1
  | stop (st : EngineState) : Reachable st → Reachable (stop st)
  | cooldown (st : EngineState) : Reachable st → Reachable (clearRecentNotes st)

/-- Spec-side formula (section 4.2 of the specification): the flux is the
square root of the sum over all bins of squared positive-part differences
`max(0, cur[i] - prev[i])` of the normalized spectra. -/
def fluxSpecSumSq (prev cur : List ℕ) : ℚ :=
  (((List.range cur.length).map (fun i =>
    (max 0 (((cur.getD i 0 : ℚ) - (prev.getD i 0 : ℚ)) / 255)) ^ 2))).sum

/-- Spec-side adaptive threshold: `max(baseThreshold, mean(history) * 1.5)`
with the mean of an empty history read as 0. -/
noncomputable def adaptiveThresholdSpec (hist : List ℝ) : ℝ :=
  max ((ONSET_THRESHOLD : ℚ) : ℝ)
    ((if hist.length = 0 then 0 else hist.sum / (hist.length : ℝ)) * (3 / 2))

/-- A period-4 time-domain window of amplitude `1/50` and length 14, used
as a concrete input on which `yinPitch` succeeds (at `sampleRate = 800` it
detects about 200.36 Hz with confidence 1). -/
def exPitchBuffer : List ℚ :=
  [1/50, 1/50, -1/50, -1/50, 1/50, 1/50, -1/50, -1/50, 1/50, 1/50, -1/50, -1/50, 1/50, 1/50]

/-- A concrete running engine state sitting in SILENCE with a loud, onset
frame already folded in (flux 1, envelope 1): used to witness the SILENCE
branch behaviour. -/
def exSilenceState : EngineState :=
  { initState with isDetecting := true, spectralFlux := 1, envelope := 1 }

/-- A tick input is "silent" for a given pre-state when, after the
envelope and flux updates of that tick, the smoothed envelope is below
`ATTACK_THRESHOLD` and the spectral flux is below the adaptive onset
threshold. -/
noncomputable def silentFrame (st : EngineState) (f : Frame) : Prop :=
  (envFluxUpdate st f).envelope < ((ATTACK_THRESHOLD : ℚ) : ℝ) ∧
  (envFluxUpdate st f).spectralFlux < adaptiveOnsetThreshold (envFluxUpdate st f).fluxHistory

/-- Every frame of the list is silent with respect to the state the engine
has evolved into when that frame arrives. -/
noncomputable def SilentRun (sampleRate : ℚ) : EngineState → List Frame → Prop
  | _, [] => True
  | st, f :: fs => silentFrame st f ∧ SilentRun sampleRate (detectPitch sampleRate st f).1 fs

/-- The running engine right after a successful `start` on a fresh
instance. -/
def exStart : EngineState := { initState with isDetecting := true }

/-- An all-zero time-domain window of length 14. -/
def zeroBuffer : List ℚ := List.replicate 14 0

/-- A constant window of amplitude `1/20` (instant RMS `1/20`). -/
def warmBuffer : List ℚ := List.replicate 14 (1/20)

/-- An all-zero 7-bin spectrum. -/
def spec0 : List ℕ := List.replicate 7 0

/-- Spectrum with bin 0 at 100 (flux `100/255` after `spec0`). -/
def spec3 : List ℕ := [100, 0, 0, 0, 0, 0, 0]

/-- Spectrum raising bins 1-4 to 100 (flux `200/255` after `spec3`). -/
def spec4 : List ℕ := [100, 100, 100, 100, 100, 0, 0]

/-- Spectrum raising bins 1-4 to 200 (flux `200/255` after `spec4`);
its bins 3 and 4 carry the harmonic energy for the 200.36 Hz pitch. -/
def spec5 : List ℕ := [100, 200, 200, 200, 200, 0, 0]

/-- A silent frame: all-zero window, all-zero spectrum. -/
def exSilentFrame : Frame := { timeBuffer := zeroBuffer, spectrum := spec0, now := 0 }

/-- Frame 1 of the concrete run behind the C3 counterexample. -/
def c3f1 : Frame := { timeBuffer := warmBuffer, spectrum := spec0, now := 1 }

/-- Frame 2 of the concrete run behind the C3 counterexample. -/
def c3f2 : Frame := { timeBuffer := warmBuffer, spectrum := spec0, now := 2 }

/-- Frame 3 of the concrete run behind the C3 counterexample. -/
def c3f3 : Frame := { timeBuffer := warmBuffer, spectrum := spec3, now := 3 }

/-- Frame 4 of the concrete run behind the C3 counterexample. -/
def c3f4 : Frame := { timeBuffer := warmBuffer, spectrum := spec4, now := 4 }

/-- Frame 5 of the concrete run behind the C3 counterexample. -/
def c3f5 : Frame := { timeBuffer := warmBuffer, spectrum := spec5, now := 5 }

/-- Frame 6 of the concrete run behind the C3 counterexample. -/
def c3f6 : Frame := { timeBuffer := exPitchBuffer, spectrum := spec5, now := 6 }

/-- Frame 7 of the concrete run behind the C3 counterexample. -/
def c3f7 : Frame := { timeBuffer := zeroBuffer, spectrum := spec5, now := 7 }

/-- Frame 8 of the concrete run behind the C3 counterexample. -/
def c3f8 : Frame := { timeBuffer := zeroBuffer, spectrum := spec5, now := 8 }

/-- Frame 9 of the concrete run behind the C3 counterexample. -/
def c3f9 : Frame := { timeBuffer := zeroBuffer, spectrum := spec5, now := 9 }

/-- Frame 10 of the concrete run behind the C3 counterexample. -/
def c3f10 : Frame := { timeBuffer := zeroBuffer, spectrum := spec5, now := 10 }

/-- Frame 11 of the concrete run behind the C3 counterexample. -/
def c3f11 : Frame := { timeBuffer := zeroBuffer, spectrum := spec5, now := 11 }

/-- Frame 12 of the concrete run behind the C3 counterexample. -/
def c3f12 : Frame := { timeBuffer := zeroBuffer, spectrum := spec5, now := 12 }

/-- Frame 13 of the concrete run behind the C3 counterexample. -/
def c3f13 : Frame := { timeBuffer := zeroBuffer, spectrum := spec5, now := 13 }

/-- Frame 14 of the concrete run behind the C3 counterexample. -/
def c3f14 : Frame := { timeBuffer := zeroBuffer, spectrum := spec5, now := 14 }

/-- The engine state after tick 1 of the concrete run. -/
def c3st1 : EngineState :=
  { isDetecting := true
    previousSpectrum := some spec0
    spectralFlux := ((0 : ℚ) : ℝ)
    fluxHistory := []
    noteState := .SILENCE
    envelope := ((3/200 : ℚ) : ℝ)
    peakEnvelope := (0 : ℝ)
    currentNote := none
    noteStartTime := 0
    framesSinceAttack := 0
    framesSinceRelease := 0
    harmonicConfidence := 0
    cooldownFrames := 0 }

/-- The engine state after tick 2 of the concrete run. -/
def c3st2 : EngineState :=
  { isDetecting := true
    previousSpectrum := some spec0
    spectralFlux := ((0 : ℚ) : ℝ)
    fluxHistory := [((0 : ℚ) : ℝ)]
    noteState := .SILENCE
    envelope := ((51/2000 : ℚ) : ℝ)
    peakEnvelope := (0 : ℝ)
    currentNote := none
    noteStartTime := 0
    framesSinceAttack := 0
    framesSinceRelease := 0
    harmonicConfidence := 0
    cooldownFrames := 0 }

/-- The engine state after tick 3 of the concrete run. -/
def c3st3 : EngineState :=
  { isDetecting := true
    previousSpectrum := some spec3
    spectralFlux := ((20/51 : ℚ) : ℝ)
    fluxHistory := [((0 : ℚ) : ℝ), ((20/51 : ℚ) : ℝ)]
    noteState := .SILENCE
    envelope := ((657/20000 : ℚ) : ℝ)
    peakEnvelope := (0 : ℝ)
    currentNote := none
    noteStartTime := 0
    framesSinceAttack := 1
    framesSinceRelease := 0
    harmonicConfidence := 0
    cooldownFrames := 0 }

/-- The engine state after tick 4 of the concrete run. -/
def c3st4 : EngineState :=
  { isDetecting := true
    previousSpectrum := some spec4
    spectralFlux := ((40/51 : ℚ) : ℝ)
    fluxHistory := [((0 : ℚ) : ℝ), ((20/51 : ℚ) : ℝ), ((40/51 : ℚ) : ℝ)]
    noteState := .SILENCE
    envelope := ((7599/200000 : ℚ) : ℝ)
    peakEnvelope := (0 : ℝ)
    currentNote := none
    noteStartTime := 0
    framesSinceAttack := 2
    framesSinceRelease := 0
    harmonicConfidence := 0
    cooldownFrames := 0 }

/-- The engine state after tick 5 of the concrete run. -/
def c3st5 : EngineState :=
  { isDetecting := true
    previousSpectrum := some spec5
    spectralFlux := ((40/51 : ℚ) : ℝ)
    fluxHistory := [((0 : ℚ) : ℝ), ((20/51 : ℚ) : ℝ), ((40/51 : ℚ) : ℝ), ((40/51 : ℚ) : ℝ)]
    noteState := .ATTACK
    envelope := ((83193/2000000 : ℚ) : ℝ)
    peakEnvelope := ((83193/2000000 : ℚ) : ℝ)
    currentNote := none
    noteStartTime := 5
    framesSinceAttack := 0
    framesSinceRelease := 0
    harmonicConfidence := 0
    cooldownFrames := 0 }

/-- The engine state after tick 6 of the concrete run. -/
noncomputable def c3st6 : EngineState :=
  { isDetecting := true
    previousSpectrum := some spec5
    spectralFlux := ((0 : ℚ) : ℝ)
    fluxHistory := [((0 : ℚ) : ℝ), ((20/51 : ℚ) : ℝ), ((40/51 : ℚ) : ℝ), ((40/51 : ℚ) : ℝ), ((0 : ℚ) : ℝ)]
    noteState := .SUSTAIN
    envelope := ((702351/20000000 : ℚ) : ℝ)
    peakEnvelope := ((83193/2000000 : ℚ) : ℝ)
    currentNote := some (captureNote (110400/551) (JSNum.fin 1) (40/51))
    noteStartTime := 5
    framesSinceAttack := 0
    framesSinceRelease := 0
    harmonicConfidence := 40/51
    cooldownFrames := 0 }

/-- The engine state after tick 7 of the concrete run. -/
noncomputable def c3st7 : EngineState :=
  { isDetecting := true
    previousSpectrum := some spec5
    spectralFlux := ((0 : ℚ) : ℝ)
    fluxHistory := [((20/51 : ℚ) : ℝ), ((40/51 : ℚ) : ℝ), ((40/51 : ℚ) : ℝ), ((0 : ℚ) : ℝ), ((0 : ℚ) : ℝ)]
    noteState := .SUSTAIN
    envelope := ((4916457/200000000 : ℚ) : ℝ)
    peakEnvelope := ((83193/2000000 : ℚ) : ℝ)
    currentNote := some (captureNote (110400/551) (JSNum.fin 1) (40/51))
    noteStartTime := 5
    framesSinceAttack := 0
    framesSinceRelease := 0
    harmonicConfidence := 0
    cooldownFrames := 0 }

/-- The engine state after tick 8 of the concrete run. -/
noncomputable def c3st8 : EngineState :=
  { isDetecting := true
    previousSpectrum := some spec5
    spectralFlux := ((0 : ℚ) : ℝ)
    fluxHistory := [((40/51 : ℚ) : ℝ), ((40/51 : ℚ) : ℝ), ((0 : ℚ) : ℝ), ((0 : ℚ) : ℝ), ((0 : ℚ) : ℝ)]
    noteState := .SUSTAIN
    envelope := ((34415199/2000000000 : ℚ) : ℝ)
    peakEnvelope := ((83193/2000000 : ℚ) : ℝ)
    currentNote := some (captureNote (110400/551) (JSNum.fin 1) (40/51))
    noteStartTime := 5
    framesSinceAttack := 0
    framesSinceRelease := 0
    harmonicConfidence := 0
    cooldownFrames := 0 }

/-- The engine state after tick 9 of the concrete run. -/
noncomputable def c3st9 : EngineState :=
  { isDetecting := true
    previousSpectrum := some spec5
    spectralFlux := ((0 : ℚ) : ℝ)
    fluxHistory := [((40/51 : ℚ) : ℝ), ((0 : ℚ) : ℝ), ((0 : ℚ) : ℝ), ((0 : ℚ) : ℝ), ((0 : ℚ) : ℝ)]
    noteState := .SUSTAIN
    envelope := ((240906393/20000000000 : ℚ) : ℝ)
    peakEnvelope := ((83193/2000000 : ℚ) : ℝ)
    currentNote := some (captureNote (110400/551) (JSNum.fin 1) (40/51))
    noteStartTime := 5
    framesSinceAttack := 0
    framesSinceRelease := 0
    harmonicConfidence := 0
    cooldownFrames := 0 }

/-- The engine state after tick 10 of the concrete run. -/
noncomputable def c3st10 : EngineState :=
  { isDetecting := true
    previousSpectrum := some spec5
    spectralFlux := ((0 : ℚ) : ℝ)
    fluxHistory := [((0 : ℚ) : ℝ), ((0 : ℚ) : ℝ), ((0 : ℚ) : ℝ), ((0 : ℚ) : ℝ), ((0 : ℚ) : ℝ)]
    noteState := .SUSTAIN
    envelope := ((1686344751/200000000000 : ℚ) : ℝ)
    peakEnvelope := ((83193/2000000 : ℚ) : ℝ)
    currentNote := some (captureNote (110400/551) (JSNum.fin 1) (40/51))
    noteStartTime := 5
    framesSinceAttack := 0
    framesSinceRelease := 1
    harmonicConfidence := 0
    cooldownFrames := 0 }

/-- The engine state after tick 11 of the concrete run. -/
noncomputable def c3st11 : EngineState :=
  { isDetecting := true
    previousSpectrum := some spec5
    spectralFlux := ((0 : ℚ) : ℝ)
    fluxHistory := [((0 : ℚ) : ℝ), ((0 : ℚ) : ℝ), ((0 : ℚ) : ℝ), ((0 : ℚ) : ℝ), ((0 : ℚ) : ℝ)]
    noteState := .SUSTAIN
    envelope := ((11804413257/2000000000000 : ℚ) : ℝ)
    peakEnvelope := ((83193/2000000 : ℚ) : ℝ)
    currentNote := some (captureNote (110400/551) (JSNum.fin 1) (40/51))
    noteStartTime := 5
    framesSinceAttack := 0
    framesSinceRelease := 2
    harmonicConfidence := 0
    cooldownFrames := 0 }

/-- The engine state after tick 12 of the concrete run. -/
noncomputable def c3st12 : EngineState :=
  { isDetecting := true
    previousSpectrum := some spec5
    spectralFlux := ((0 : ℚ) : ℝ)
    fluxHistory := [((0 : ℚ) : ℝ), ((0 : ℚ) : ℝ), ((0 : ℚ) : ℝ), ((0 : ℚ) : ℝ), ((0 : ℚ) : ℝ)]
    noteState := .SUSTAIN
    envelope := ((82630892799/20000000000000 : ℚ) : ℝ)
    peakEnvelope := ((83193/2000000 : ℚ) : ℝ)
    currentNote := some (captureNote (110400/551) (JSNum.fin 1) (40/51))
    noteStartTime := 5
    framesSinceAttack := 0
    framesSinceRelease := 3
    harmonicConfidence := 0
    cooldownFrames := 0 }

/-- The engine state after tick 13 of the concrete run. -/
noncomputable def c3st13 : EngineState :=
  { isDetecting := true
    previousSpectrum := some spec5
    spectralFlux := ((0 : ℚ) : ℝ)
    fluxHistory := [((0 : ℚ) : ℝ), ((0 : ℚ) : ℝ), ((0 : ℚ) : ℝ), ((0 : ℚ) : ℝ), ((0 : ℚ) : ℝ)]
    noteState := .SUSTAIN
    envelope := ((578416249593/200000000000000 : ℚ) : ℝ)
    peakEnvelope := ((83193/2000000 : ℚ) : ℝ)
    currentNote := some (captureNote (110400/551) (JSNum.fin 1) (40/51))
    noteStartTime := 5
    framesSinceAttack := 0
    framesSinceRelease := 4
    harmonicConfidence := 0
    cooldownFrames := 0 }

/-- The engine state after tick 14 of the concrete run. -/
noncomputable def c3st14 : EngineState :=
  { isDetecting := true
    previousSpectrum := some spec5
    spectralFlux := ((0 : ℚ) : ℝ)
    fluxHistory := [((0 : ℚ) : ℝ), ((0 : ℚ) : ℝ), ((0 : ℚ) : ℝ), ((0 : ℚ) : ℝ), ((0 : ℚ) : ℝ)]
    noteState := .RELEASE
    envelope := ((4048913747151/2000000000000000 : ℚ) : ℝ)
    peakEnvelope := ((83193/2000000 : ℚ) : ℝ)
    currentNote := some (captureNote (110400/551) (JSNum.fin 1) (40/51))
    noteStartTime := 5
    framesSinceAttack := 0
    framesSinceRelease := 0
    harmonicConfidence := 0
    cooldownFrames := 0 }

/-- A running SUSTAIN state holding a gate-passing captured note, used to
witness the amended C3 invariant. -/
noncomputable def c3wState : EngineState :=
  { initState with
    isDetecting := true
    noteState := .SUSTAIN
    currentNote := some (captureNote (110400/551) (JSNum.fin 1) (40/51)) }

/-! ### Lemmas about the YIN scan -/

theorem optLtQ_true_iff {o : Option ℚ} {c : ℚ} :
    optLtQ o c = true ↔ ∃ q, o = some q ∧ q < c := by
  cases o <;> simp [optLtQ]

theorem optLt_true_iff {a b : Option ℚ} :
    optLt a b = true ↔ ∃ x y, a = some x ∧ b = some y ∧ x < y := by
  cases a <;> cases b <;> simp [optLt]

theorem differenceFunction_nonneg (buf : List ℚ) (tau : ℕ) :
    0 ≤ differenceFunction buf tau := by
  unfold differenceFunction
  apply List.sum_nonneg
  intro x hx
  simp only [List.mem_map, List.mem_range] at hx
  obtain ⟨i, _, rfl⟩ := hx
  positivity

theorem diffRunningSum_nonneg (buf : List ℚ) (tau : ℕ) :
    0 ≤ diffRunningSum buf tau := by
  unfold diffRunningSum
  apply List.sum_nonneg
  intro x hx
  simp only [List.mem_map, List.mem_range] at hx
  obtain ⟨j, _, rfl⟩ := hx
  exact differenceFunction_nonneg buf (j + 1)

theorem cmndf_nonneg {buf : List ℚ} {tau : ℕ} {q : ℚ}
    (h : cmndf buf tau = some q) : 0 ≤ q := by
  unfold cmndf at h
  split at h
  · exact absurd h (by simp)
  · split at h
    · obtain rfl : (1 : ℚ) = q := Option.some.inj h
      norm_num
    · split at h
      · exact absurd h (by simp)
      · next h1 h2 h3 =>
          obtain rfl := Option.some.inj h
          have hd := differenceFunction_nonneg buf tau
          have hs := diffRunningSum_nonneg buf tau
          have hs' : 0 < diffRunningSum buf tau := lt_of_le_of_ne hs (Ne.symm h3)
          have ht : 0 < (tau : ℚ) := by
            have : 0 < tau := Nat.pos_of_ne_zero h2
            exact_mod_cast this
          exact div_nonneg hd (le_of_lt (div_pos hs' ht))

theorem yinDescend_below (cm : ℕ → Option ℚ) (maxTau : ℕ) :
    ∀ fuel tau, optLtQ (cm tau) YIN_THRESHOLD = true →
      optLtQ (cm (yinDescend cm maxTau fuel tau)) YIN_THRESHOLD = true := by
  intro fuel
  induction fuel with
  | zero => intro tau h; simpa [yinDescend] using h
  | succ n ih =>
      intro tau h
      rw [yinDescend]
      split
      · next hcond =>
          apply ih
          obtain ⟨q, hq, hqc⟩ := optLtQ_true_iff.mp h
          obtain ⟨x, y, hx, hy, hxy⟩ := optLt_true_iff.mp hcond.2
          rw [hy] at hq
          obtain rfl := Option.some.inj hq
          exact optLtQ_true_iff.mpr ⟨x, hx, lt_trans hxy hqc⟩
      · exact h

theorem yinSearch_below (cm : ℕ → Option ℚ) (maxTau : ℕ) :
    ∀ fuel tau, maxTau ≤ fuel + tau →
      maxTau ≤ yinSearch cm maxTau fuel tau ∨
        optLtQ (cm (yinSearch cm maxTau fuel tau)) YIN_THRESHOLD = true := by
  intro fuel
  induction fuel with
  | zero =>
      intro tau h
      left
      simpa [yinSearch] using h
  | succ n ih =>
      intro tau h
      rw [yinSearch]
      split
      · split
        · next hacc => right; exact yinDescend_below cm maxTau maxTau tau hacc
        · exact ih (tau + 1) (by omega)
      · next hge => left; omega

theorem yinPitch_some_cmndf {buf : List ℚ} {sr : ℚ} {r : YinResult}
    (h : yinPitch buf sr = some r) :
    ∃ c, r.cmndfAtTau = some c ∧ 0 ≤ c ∧ c < YIN_THRESHOLD ∧
      r.confidence = .fin (1 + -c) := by
  unfold yinPitch at h
  split at h
  · exact absurd h (by simp)
  · next hguard =>
      push_neg at hguard
      obtain ⟨hA, _⟩ := hguard
      have hs := yinSearch_below (cmndf buf) (yinMaxTau sr) (yinMaxTau sr) (yinMinTau sr)
        (by omega)
      have hfold : yinSearch (cmndf buf) (yinMaxTau sr) (yinMaxTau sr) (yinMinTau sr) =
          yinTau buf sr := rfl
      rw [hfold] at hs
      rcases hs with hge | hbelow
      · exact absurd hge (not_le.mpr hA)
      · obtain ⟨c, hc, hcθ⟩ := optLtQ_true_iff.mp hbelow
        obtain rfl := Option.some.inj h
        exact ⟨c, by simp [hc], cmndf_nonneg hc, hcθ, by simp [hc, jsSub, jsAdd, jsNeg, ofOpt]⟩

theorem yinPitch_none {buf : List ℚ} {sr : ℚ}
    (h : ∀ t, optLtQ (cmndf buf t) YIN_THRESHOLD = false) : yinPitch buf sr = none := by
  unfold yinPitch
  rw [if_pos]
  have hs := yinSearch_below (cmndf buf) (yinMaxTau sr) (yinMaxTau sr) (yinMinTau sr)
    (by omega)
  have hfold : yinSearch (cmndf buf) (yinMaxTau sr) (yinMaxTau sr) (yinMinTau sr) =
      yinTau buf sr := rfl
  rw [hfold] at hs
  rcases hs with hge | hbelow
  · exact Or.inl hge
  · rw [h (yinTau buf sr)] at hbelow
    exact absurd hbelow (by simp)

theorem getD_replicate_of_lt {n : ℕ} {c : ℚ} {i : ℕ} (hi : i < n) :
    (List.replicate n c).getD i 0 = c := by
  rw [List.getD_eq_getElem?_getD, List.getElem?_replicate, if_pos hi]
  rfl

theorem differenceFunction_replicate (n : ℕ) (c : ℚ) (tau : ℕ)
    (h : tau < halfSize (List.replicate n c)) :
    differenceFunction (List.replicate n c) tau = 0 := by
  have hn : halfSize (List.replicate n c) = n / 2 := by simp [halfSize]
  rw [hn] at h
  unfold differenceFunction
  apply List.sum_eq_zero
  intro x hx
  simp only [List.mem_map, List.mem_range, hn] at hx
  obtain ⟨i, hi, rfl⟩ := hx
  rw [getD_replicate_of_lt (by omega), getD_replicate_of_lt (by omega)]
  ring

theorem cmndf_replicate_not_below (n : ℕ) (c : ℚ) (t : ℕ) :
    optLtQ (cmndf (List.replicate n c) t) YIN_THRESHOLD = false := by
  unfold cmndf
  split
  · rfl
  · split
    · norm_num [optLtQ, YIN_THRESHOLD]
    · split
      · rfl
      · next hhalf ht hS =>
          exfalso
          apply hS
          unfold diffRunningSum
          apply List.sum_eq_zero
          intro x hx
          simp only [List.mem_map, List.mem_range] at hx
          obtain ⟨j, hj, rfl⟩ := hx
          exact differenceFunction_replicate n c (j + 1) (by omega)

theorem yinPitch_replicate (n : ℕ) (c : ℚ) (sr : ℚ) :
    yinPitch (List.replicate n c) sr = none :=
  yinPitch_none (fun t => cmndf_replicate_not_below n c t)

/-! ### Concrete evaluation of `yinPitch` on `exPitchBuffer` -/

theorem halfSize_exPitchBuffer : halfSize exPitchBuffer = 7 := by
  norm_num [halfSize, exPitchBuffer]

theorem cmndf_exPitchBuffer_0 : cmndf exPitchBuffer 0 = some 1 := by
  norm_num [cmndf, halfSize, exPitchBuffer]

theorem cmndf_exPitchBuffer_1 : cmndf exPitchBuffer 1 = some 1 := by
  norm_num [cmndf, halfSize, exPitchBuffer, differenceFunction, diffRunningSum, List.range_succ]

theorem cmndf_exPitchBuffer_2 : cmndf exPitchBuffer 2 = some (7/5) := by
  norm_num [cmndf, halfSize, exPitchBuffer, differenceFunction, diffRunningSum, List.range_succ]

theorem cmndf_exPitchBuffer_3 : cmndf exPitchBuffer 3 = some (6/7) := by
  norm_num [cmndf, halfSize, exPitchBuffer, differenceFunction, diffRunningSum, List.range_succ]

theorem cmndf_exPitchBuffer_4 : cmndf exPitchBuffer 4 = some 0 := by
  norm_num [cmndf, halfSize, exPitchBuffer, differenceFunction, diffRunningSum, List.range_succ]

theorem cmndf_exPitchBuffer_5 : cmndf exPitchBuffer 5 = some (15/17) := by
  norm_num [cmndf, halfSize, exPitchBuffer, differenceFunction, diffRunningSum, List.range_succ]

theorem yinPitch_exPitchBuffer : yinPitch exPitchBuffer 800 =
    some { frequency := .fin (110400/551), confidence := .fin 1,
           tau := .fin (551/138), cmndfAtTau := some 0 } := by
  norm_num [yinPitch, yinTau, yinBetterTau, yinMinTau, yinMaxTau, yinSearch, yinDescend,
    parabolicStep, ofOpt, optLtQ, optLt, optGeQ,
    jsAdd, jsSub, jsNeg, jsMul, jsDiv, YIN_THRESHOLD, MIN_FREQUENCY, MAX_FREQUENCY,
    halfSize_exPitchBuffer, cmndf_exPitchBuffer_0, cmndf_exPitchBuffer_1, cmndf_exPitchBuffer_2,
    cmndf_exPitchBuffer_3, cmndf_exPitchBuffer_4, cmndf_exPitchBuffer_5]

/-! ### Claim C2 -/

/-- C2 counterexample: at the concrete interpolation input
`tau = 5`, `s0 = s1 = s2 = 1/10` (array length 7) the quadratic coefficient
`2*(2*s1 - s2 - s0)` is zero, yet the source's interpolation step does not
fall back to the integer `tau = 5`: it computes `0/0`, so the refined tau
is NaN.  This refutes the claimed numeric guard. -/
theorem C2_counterexample :
    2 * (2 * (1/10 : ℚ) - 1/10 - 1/10) = 0 ∧
    parabolicStep 7 5 (some (1/10)) (some (1/10)) (some (1/10)) = JSNum.nan ∧
    JSNum.nan ≠ JSNum.fin (5 : ℚ) := by
  refine ⟨by norm_num, ?_, by simp⟩
  norm_num [parabolicStep, ofOpt, jsSub, jsAdd, jsNeg, jsMul, jsDiv]

/-- C2 (amended): the parabolic-interpolation step of `yinPitch` has no
zero-coefficient guard: whenever the quadratic coefficient is zero (inside
the array-boundary guard) the refined tau is NaN or an infinity, never the
finite integer tau.  What does hold of the surrounding numeric paths: a
zero-length buffer yields no pitch, and whenever `yinPitch` returns a
result, the CMNDF value at the accepted tau is a real number in
`[0, YIN_THRESHOLD)` (never NaN), so the reported confidence is finite. -/
theorem C2_no_guard_in_interpolation :
    (∀ (halfLen tau : ℕ) (s0 s1 s2 : ℚ), 0 < tau → tau + 1 < halfLen →
        2 * (2 * s1 - s2 - s0) = 0 →
        (parabolicStep halfLen tau (some s0) (some s1) (some s2)).isFinite = false) ∧
    (∀ sr : ℚ, yinPitch [] sr = none) ∧
    (∀ (buf : List ℚ) (sr : ℚ) (r : YinResult), yinPitch buf sr = some r →
        ∃ c, r.cmndfAtTau = some c ∧ 0 ≤ c ∧ c < YIN_THRESHOLD) := by
  refine ⟨?_, ?_, ?_⟩
  · intro halfLen tau s0 s1 s2 h1 h2 h0
    unfold parabolicStep
    rw [if_pos ⟨h1, h2⟩]
    have hden : jsMul (.fin 2)
        (jsSub (jsSub (jsMul (.fin 2) (ofOpt (some s1))) (ofOpt (some s2))) (ofOpt (some s0))) =
        .fin 0 := by
      simp only [ofOpt, jsMul, jsSub, jsAdd, jsNeg]
      congr 1
      linarith
    have hnum : jsSub (ofOpt (some s2)) (ofOpt (some s0)) = .fin (s2 + -s0) := rfl
    rw [hden, hnum]
    have hdiv : ∀ a : ℚ, (jsAdd (.fin (tau : ℚ)) (jsDiv (.fin a) (.fin 0))).isFinite = false := by
      intro a
      simp only [jsDiv, if_pos rfl]
      split_ifs <;> simp [jsAdd, JSNum.isFinite]
    exact hdiv (s2 + -s0)
  · intro sr
    apply yinPitch_none
    intro t
    have : cmndf [] t = none := by
      unfold cmndf
      rw [if_pos]
      simp [halfSize]
    rw [this]
    rfl
  · intro buf sr r h
    obtain ⟨c, hc, h0, hθ, _⟩ := yinPitch_some_cmndf h
    exact ⟨c, hc, h0, hθ⟩

/-- C2 witness: the amended theorem applied at the concrete interpolation
input `(7, 5, 1/10, 1/10, 1/10)`, at the empty buffer with sample rate
300, and at the concrete buffer `exPitchBuffer` at sample rate 800. -/
theorem C2_witness :
    (parabolicStep 7 5 (some (1/10 : ℚ)) (some (1/10)) (some (1/10))).isFinite = false ∧
    yinPitch [] 300 = none ∧
    ∃ c, ({ frequency := .fin (110400/551), confidence := .fin 1,
            tau := .fin (551/138), cmndfAtTau := some 0 } : YinResult).cmndfAtTau = some c ∧
      0 ≤ c ∧ c < YIN_THRESHOLD :=
  ⟨C2_no_guard_in_interpolation.1 7 5 (1/10) (1/10) (1/10) (by norm_num) (by norm_num)
      (by norm_num),
   C2_no_guard_in_interpolation.2.1 300,
   C2_no_guard_in_interpolation.2.2 exPitchBuffer 800 _ yinPitch_exPitchBuffer⟩

/-! ### Claim C10 -/

/-- C10: whenever `yinPitch` returns a result, the confidence is a real
number in the half-open interval `(1 - YIN_THRESHOLD, 1]`: strictly above
`0.85` with the default threshold and never above `1`. -/
theorem C10_confidence_range :
    ∀ (buf : List ℚ) (sr : ℚ) (r : YinResult), yinPitch buf sr = some r →
      ∃ q, r.confidence = .fin q ∧ 1 - YIN_THRESHOLD < q ∧ q ≤ 1 := by
  intro buf sr r h
  obtain ⟨c, _, h0, hθ, hconf⟩ := yinPitch_some_cmndf h
  refine ⟨1 + -c, hconf, ?_, by linarith⟩
  rw [YIN_THRESHOLD] at hθ ⊢
  linarith

/-- C10 witness: the theorem applied to the concrete successful detection
on `exPitchBuffer` at sample rate 800 (confidence 1). -/
theorem C10_witness :
    ∃ q, ({ frequency := .fin (110400/551), confidence := .fin 1,
            tau := .fin (551/138), cmndfAtTau := some 0 } : YinResult).confidence = .fin q ∧
      1 - YIN_THRESHOLD < q ∧ q ≤ 1 :=
  C10_confidence_range exPitchBuffer 800 _ yinPitch_exPitchBuffer

/-! ### Claim C1 -/

/-- C1 counterexample: from the reachable state obtained by triggering the
cooldown on a fresh engine, `stop()` leaves the cooldown countdown at 50,
not 0 - `resetState` never touches `cooldownFrames`, refuting the claimed
"cooldown countdown equal to 0" part of the reset. -/
theorem C1_counterexample :
    Reachable (clearRecentNotes initState) ∧
    (stop (clearRecentNotes initState)).cooldownFrames = 50 ∧ (50 : ℕ) ≠ 0 :=
  ⟨Reachable.cooldown _ Reachable.init,
   by norm_num [stop, clearRecentNotes, resetState, initState, COOLDOWN_DURATION],
   by norm_num⟩

/-- C1 (amended): `stop()` is idempotent and resets the whole pipeline
state (state SILENCE, candidate absent, flux history empty, previous
spectrum cleared, envelope, peak, flux, hysteresis counters and harmonic
confidence all zero) - but the cooldown countdown is retained, not zeroed.
Both calls leave the state identical. -/
theorem C1_stop_idempotent :
    ∀ st : EngineState,
      stop (stop st) = stop st ∧
      (stop st).noteState = .SILENCE ∧
      (stop st).currentNote = none ∧
      (stop st).fluxHistory = [] ∧
      (stop st).previousSpectrum = none ∧
      (stop st).envelope = 0 ∧
      (stop st).peakEnvelope = 0 ∧
      (stop st).spectralFlux = 0 ∧
      (stop st).framesSinceAttack = 0 ∧
      (stop st).framesSinceRelease = 0 ∧
      (stop st).harmonicConfidence = 0 ∧
      (stop st).isDetecting = false ∧
      (stop st).cooldownFrames = st.cooldownFrames := by
  intro st
  refine ⟨rfl, rfl, rfl, rfl, rfl, rfl, rfl, rfl, rfl, rfl, rfl, rfl, rfl⟩

/-! ### Claim C6 -/

/-- C6: calling `start()` while a detection session is already running
does not succeed: no `{sampleRate, bufferSize}` result is produced and the
engine state is left untouched (the source warns and returns early). -/
theorem C6_start_while_running :
    ∀ (st : EngineState) (sr : ℚ), st.isDetecting = true →
      (start st sr).1 = none ∧ (start st sr).2 = st := by
  intro st sr h
  simp [start, h]

/-- C6 witness: starting twice from a fresh engine - the second `start`
returns no result and changes nothing. -/
theorem C6_witness :
    (start (start initState 800).2 800).1 = none ∧
    (start (start initState 800).2 800).2 = (start initState 800).2 :=
  C6_start_while_running _ 800 (by simp [start, initState])

/-! ### Claim C4: the frequency-to-note mapper -/

theorem midiNumberOf_440 : midiNumberOf 440 = 69 := by
  unfold midiNumberOf
  rw [A4_FREQUENCY, A4_MIDI_NUMBER]
  norm_num [Real.logb_one, jsRound]

theorem centsOf_440 : centsOf 440 = 0 := by
  unfold centsOf exactFrequencyOf
  rw [midiNumberOf_440, A4_FREQUENCY, A4_MIDI_NUMBER]
  norm_num [Real.rpow_zero, Real.logb_one, jsRound]

theorem frequencyToNote_440 : frequencyToNote 440 =
    some { name := some "A", octave := 4, frequency := 440, cents := 0, midiNumber := 69 } := by
  unfold frequencyToNote
  rw [if_neg (by norm_num), midiNumberOf_440, centsOf_440]
  norm_num
  exact ⟨⟨by decide, by decide⟩, by decide⟩

theorem midiNumberOf_quarter : midiNumberOf (440 * (2:ℝ) ^ ((1:ℝ)/24)) = 70 := by
  unfold midiNumberOf
  rw [A4_FREQUENCY, A4_MIDI_NUMBER]
  have hdiv : (440 * (2:ℝ) ^ ((1:ℝ)/24)) / 440 = (2:ℝ) ^ ((1:ℝ)/24) := by
    field_simp
  rw [hdiv, Real.logb_rpow (by norm_num) (by norm_num)]
  norm_num [jsRound]

theorem centsOf_quarter : centsOf (440 * (2:ℝ) ^ ((1:ℝ)/24)) = -50 := by
  unfold centsOf exactFrequencyOf
  rw [midiNumberOf_quarter, A4_FREQUENCY, A4_MIDI_NUMBER]
  have hexact : (440 * (2:ℝ) ^ ((1:ℝ)/24)) / (440 * (2:ℝ) ^ ((((70:ℤ) - 69 : ℤ):ℝ)/12)) =
      (2:ℝ) ^ (-(1/24) : ℝ) := by
    have h12 : ((((70:ℤ) - 69 : ℤ)):ℝ)/12 = (1:ℝ)/12 := by norm_num
    rw [h12, mul_div_mul_left _ _ (by norm_num : (440:ℝ) ≠ 0),
      ← Real.rpow_sub (by norm_num : (0:ℝ) < 2)]
    norm_num
  rw [hexact, Real.logb_rpow (by norm_num) (by norm_num)]
  norm_num [jsRound]

theorem frequencyToNote_quarter : frequencyToNote (440 * (2:ℝ) ^ ((1:ℝ)/24)) =
    some { name := some "A#", octave := 4, frequency := 440 * (2:ℝ) ^ ((1:ℝ)/24),
           cents := -50, midiNumber := 70 } := by
  unfold frequencyToNote
  rw [if_neg (not_le.mpr (by positivity)), midiNumberOf_quarter, centsOf_quarter]
  norm_num
  exact ⟨⟨by decide, by decide⟩, by decide⟩

/-- C4 counterexample: `frequencyToNote(440 * 2^(1/24))` reports cents
= −50, not ≈ +50: `Math.round(69.5) = 70`, so the mapper snaps to the
semitone ABOVE (A#4) and the deviation is −50 cents. -/
theorem C4_counterexample :
    (frequencyToNote (440 * (2:ℝ) ^ ((1:ℝ)/24))).map NoteInfo.cents = some (-50) ∧
    (-50 : ℤ) ≠ 50 := by
  rw [frequencyToNote_quarter]
  exact ⟨rfl, by norm_num⟩

/-- C4 (amended): `frequencyToNote(440)` is A, octave 4, cents 0;
`frequencyToNote(440 * 2^(1/24))` is A#, octave 4, cents −50 (the mapper
rounds the midi number up and reports the deviation against the semitone
above, so a quarter-tone reads −50, never +50); and every `f ≤ 0` returns
absent. -/
theorem C4_frequencyToNote :
    (∃ ni, frequencyToNote 440 = some ni ∧
      ni.name = some "A" ∧ ni.octave = 4 ∧ ni.cents = 0) ∧
    (∃ ni, frequencyToNote (440 * (2:ℝ) ^ ((1:ℝ)/24)) = some ni ∧
      ni.name = some "A#" ∧ ni.cents = -50) ∧
    (∀ f : ℝ, f ≤ 0 → frequencyToNote f = none) := by
  refine ⟨⟨_, frequencyToNote_440, rfl, rfl, rfl⟩,
          ⟨_, frequencyToNote_quarter, rfl, rfl⟩, ?_⟩
  intro f hf
  unfold frequencyToNote
  rw [if_pos hf]

/-- C4 witness: the amended theorem's `f ≤ 0` clause applied at `f = -1`. -/
theorem C4_witness : frequencyToNote (-1) = none :=
  C4_frequencyToNote.2.2 (-1) (by norm_num)

/-! ### Claim C7: spectral flux -/

/-- C7 counterexample: on the first tick (no previous spectrum) the
returned flux 0 is NOT pushed into the flux history - the history stays
empty, refuting the "each tick's flux is pushed" part of the claim. -/
theorem C7_counterexample :
    (calculateSpectralFlux none [] [100, 0, 0, 0, 0, 0, 0]).2.2 = [] ∧
    ¬ (calculateSpectralFlux none [] [100, 0, 0, 0, 0, 0, 0]).1 ∈
      (calculateSpectralFlux none [] [100, 0, 0, 0, 0, 0, 0]).2.2 := by
  constructor <;> simp [calculateSpectralFlux]

theorem ifPos_sq_eq_max_sq (d : ℚ) : (if 0 < d then d ^ 2 else 0) = (max 0 d) ^ 2 := by
  rcases le_or_lt d 0 with h | h
  · rw [if_neg (not_lt.mpr h), max_eq_left h]
    norm_num
  · rw [if_pos h, max_eq_right (le_of_lt h)]

theorem fluxSumSq_eq_spec {p s : List ℕ} (h : s.length ≤ p.length) :
    fluxSumSq p s = fluxSpecSumSq p s := by
  unfold fluxSumSq fluxSpecSumSq
  congr 1
  apply List.map_congr_left
  intro i hi
  simp only [List.mem_range] at hi
  have hip : i < p.length := lt_of_lt_of_le hi h
  have h1 : p.get? i = some (p.getD i 0) := by
    rw [List.getD_eq_getElem?_getD, List.get?_eq_getElem?, List.getElem?_eq_getElem hip]
    rfl
  rw [h1]
  simp only [ifPos_sq_eq_max_sq]

/-- C7 (amended): for every tick with a previous spectrum the flux equals
the specification formula sqrt(sum of squared positive differences of the
normalized spectra) (over equal-length spectra), and the flux is pushed
into the history with the oldest entry evicted beyond capacity 5; but the
FIRST tick returns flux 0, records the spectrum as the seed, and pushes
nothing into the history; the adaptive onset threshold is
`max(ONSET_THRESHOLD, mean(history) * 1.5)`. -/
theorem C7_spectralFlux :
    (∀ (p s : List ℕ) (hist : List ℝ), s.length ≤ p.length →
        (calculateSpectralFlux (some p) hist s).1 =
          Real.sqrt ((fluxSpecSumSq p s : ℚ) : ℝ)) ∧
    (∀ (s : List ℕ) (hist : List ℝ),
        calculateSpectralFlux none hist s = (0, some s, hist)) ∧
    (∀ (p s : List ℕ) (hist : List ℝ), hist.length ≤ FLUX_HISTORY_SIZE →
        (calculateSpectralFlux (some p) hist s).2.2 =
          (if hist.length = FLUX_HISTORY_SIZE then
             hist.tail ++ [(calculateSpectralFlux (some p) hist s).1]
           else hist ++ [(calculateSpectralFlux (some p) hist s).1]) ∧
        (calculateSpectralFlux (some p) hist s).2.2.length ≤ FLUX_HISTORY_SIZE) ∧
    (∀ hist : List ℝ, adaptiveOnsetThreshold hist = adaptiveThresholdSpec hist) := by
  refine ⟨?_, ?_, ?_, ?_⟩
  · intro p s hist h
    simp only [calculateSpectralFlux]
    rw [fluxSumSq_eq_spec h]
  · intro s hist
    rfl
  · intro p s hist h
    simp only [calculateSpectralFlux, FLUX_HISTORY_SIZE] at h ⊢
    have hlen : (hist ++ [Real.sqrt ((fluxSumSq p s : ℚ) : ℝ)]).length = hist.length + 1 := by
      simp
    constructor
    · rcases eq_or_lt_of_le h with h5 | h5
      · rw [if_pos (by rw [hlen]; omega), if_pos h5]
        cases hist with
        | nil => simp at h5
        | cons a t => simp
      · rw [if_neg (by rw [hlen]; omega), if_neg (by omega)]
    · by_cases h6 : 5 < (hist ++ [Real.sqrt ((fluxSumSq p s : ℚ) : ℝ)]).length
      · rw [if_pos h6, List.length_tail, hlen]
        omega
      · rw [if_neg h6, hlen]
        rw [hlen] at h6
        omega
  · intro hist
    rfl

/-- C7 witness: the amended theorem applied at a concrete second tick
(previous spectrum all zero, one bin rising to 100, empty history). -/
theorem C7_witness :
    (calculateSpectralFlux (some [0, 0, 0, 0, 0, 0, 0]) [] [100, 0, 0, 0, 0, 0, 0]).1 =
      Real.sqrt ((fluxSpecSumSq [0, 0, 0, 0, 0, 0, 0] [100, 0, 0, 0, 0, 0, 0] : ℚ) : ℝ) ∧
    calculateSpectralFlux none [] [100, 0, 0, 0, 0, 0, 0] =
      (0, some [100, 0, 0, 0, 0, 0, 0], []) ∧
    (calculateSpectralFlux (some [0, 0, 0, 0, 0, 0, 0]) [] [100, 0, 0, 0, 0, 0, 0]).2.2.length ≤
      FLUX_HISTORY_SIZE :=
  ⟨C7_spectralFlux.1 _ _ [] (by norm_num),
   C7_spectralFlux.2.1 _ [],
   (C7_spectralFlux.2.2.1 _ _ [] (by norm_num [FLUX_HISTORY_SIZE])).2⟩

/-! ### The SILENCE branch of the state machine (shared helper) -/

theorem updateNoteState_silence :
    ∀ (st : EngineState) (pitch : Option ℚ) (conf : JSNum) (now : ℤ),
      st.noteState = .SILENCE →
      ((adaptiveOnsetThreshold st.fluxHistory < st.spectralFlux ∧
          ((ATTACK_THRESHOLD : ℚ) : ℝ) < st.envelope) →
        (st.framesSinceAttack + 1 < ATTACK_HYSTERESIS_FRAMES →
          updateNoteState st pitch conf now =
            { st with framesSinceAttack := st.framesSinceAttack + 1 }) ∧
        (ATTACK_HYSTERESIS_FRAMES ≤ st.framesSinceAttack + 1 →
          updateNoteState st pitch conf now =
            { st with noteState := .ATTACK, peakEnvelope := st.envelope,
                      noteStartTime := now, framesSinceAttack := 0 })) ∧
      (¬ (adaptiveOnsetThreshold st.fluxHistory < st.spectralFlux ∧
          ((ATTACK_THRESHOLD : ℚ) : ℝ) < st.envelope) →
        updateNoteState st pitch conf now = { st with framesSinceAttack := 0 }) := by
  intro st pitch conf now hS
  obtain ⟨d, ps, fl, fh, ns, env, pk, cn, nst, fa, fr, hc, cd⟩ := st
  change ns = .SILENCE at hS
  subst hS
  simp only [updateNoteState]
  refine ⟨fun hq => ⟨fun hlt => ?_, fun hge => ?_⟩, fun hn => ?_⟩
  · rw [if_pos hq, if_neg (by omega)]
  · rw [if_pos hq, if_pos hge]
  · rw [if_neg hn]

/-! ### Claim C8: the SILENCE branch of the state machine -/

/-- C8: in SILENCE, a frame with `flux > adaptiveOnsetThreshold` and
`envelope > ATTACK_THRESHOLD` increments the attack-hysteresis counter; a
frame failing that condition resets it to 0; the machine moves to ATTACK
exactly when the incremented counter reaches `ATTACK_HYSTERESIS_FRAMES`,
and at that transition the counter is reset, the note-start time recorded,
and the peak set to the current envelope. -/
theorem C8_silence_branch :
    ∀ (st : EngineState) (pitch : Option ℚ) (conf : JSNum) (now : ℤ),
      st.noteState = .SILENCE →
      ((adaptiveOnsetThreshold st.fluxHistory < st.spectralFlux ∧
          ((ATTACK_THRESHOLD : ℚ) : ℝ) < st.envelope) →
        (st.framesSinceAttack + 1 < ATTACK_HYSTERESIS_FRAMES →
          updateNoteState st pitch conf now =
            { st with framesSinceAttack := st.framesSinceAttack + 1 }) ∧
        (ATTACK_HYSTERESIS_FRAMES ≤ st.framesSinceAttack + 1 →
          updateNoteState st pitch conf now =
            { st with noteState := .ATTACK, peakEnvelope := st.envelope,
                      noteStartTime := now, framesSinceAttack := 0 })) ∧
      (¬ (adaptiveOnsetThreshold st.fluxHistory < st.spectralFlux ∧
          ((ATTACK_THRESHOLD : ℚ) : ℝ) < st.envelope) →
        updateNoteState st pitch conf now = { st with framesSinceAttack := 0 }) :=
  updateNoteState_silence

/-- C8 witness: from a concrete SILENCE state with flux 1 and envelope 1
(both above their thresholds) and counter 0, one qualifying frame takes the
counter to 1 without leaving SILENCE. -/
theorem C8_witness :
    updateNoteState exSilenceState none (.fin 0) 0 =
      { exSilenceState with framesSinceAttack := 1 } :=
  ((C8_silence_branch exSilenceState none (.fin 0) 0 rfl).1
    (by constructor <;>
          norm_num [exSilenceState, initState, adaptiveOnsetThreshold, avgFlux,
            ONSET_THRESHOLD, ATTACK_THRESHOLD])).1
    (by norm_num [exSilenceState, initState, ATTACK_HYSTERESIS_FRAMES])

/-! ### Tick-level helper lemmas -/

theorem detectPitch_not_running {sr : ℚ} {st : EngineState} {f : Frame}
    (hd : st.isDetecting = false) : detectPitch sr st f = (st, none) := by
  unfold detectPitch
  rw [if_pos hd]

theorem detectPitch_cooldown {sr : ℚ} {st : EngineState} {f : Frame}
    (hd : st.isDetecting = true) (hc : 0 < st.cooldownFrames) :
    detectPitch sr st f =
      ({ envFluxUpdate st f with cooldownFrames := st.cooldownFrames - 1 }, none) := by
  unfold detectPitch
  have hc2 : 0 < (envFluxUpdate st f).cooldownFrames := hc
  rw [if_neg (by simp [hd]), if_pos hc2]
  rfl

theorem detectPitch_normal {sr : ℚ} {st : EngineState} {f : Frame}
    (hd : st.isDetecting = true) (hc : st.cooldownFrames = 0) :
    detectPitch sr st f = normalDetectTail sr (envFluxUpdate st f) f := by
  unfold detectPitch
  rw [if_neg (by simp [hd]), if_neg]
  show ¬ 0 < st.cooldownFrames
  omega

theorem emitNoteDetection_inactive {st : EngineState}
    (h : st.noteState = .SILENCE ∨ st.noteState = .RELEASE) :
    emitNoteDetection st = none := by
  have hact : ¬ (st.noteState = .SUSTAIN ∨ st.noteState = .ATTACK) := by
    rcases h with h | h <;> simp [h]
  unfold emitNoteDetection
  cases st.currentNote with
  | none => rfl
  | some cn => simp only [if_neg hact]

theorem emitNoteDetection_isSome {st : EngineState}
    (h : (emitNoteDetection st).isSome = true) :
    st.noteState = .ATTACK ∨ st.noteState = .SUSTAIN := by
  by_cases hact : st.noteState = .SUSTAIN ∨ st.noteState = .ATTACK
  · exact hact.symm
  · exfalso
    unfold emitNoteDetection at h
    cases hcn : st.currentNote with
    | none => rw [hcn] at h; simp at h
    | some cn => rw [hcn] at h; simp [hact] at h

theorem updateNoteState_currentNote (st : EngineState) (pitch : Option ℚ) (conf : JSNum)
    (now : ℤ) (cn : CapturedNote)
    (h : (updateNoteState st pitch conf now).currentNote = some cn) :
    st.currentNote = some cn ∨ MIN_HARMONIC_CONFIDENCE < cn.harmonicConfidence := by
  obtain ⟨d, ps, fl, fh, ns, env, pk, cn0, nst, fa, fr, hc, cd⟩ := st
  cases pitch with
  | none =>
      cases ns <;> simp only [updateNoteState] at h <;> split_ifs at h <;>
        first
          | exact Or.inl h
          | exact absurd h (by simp)
  | some p =>
      cases ns with
      | SILENCE =>
          simp only [updateNoteState] at h
          split_ifs at h <;> exact Or.inl h
      | ATTACK =>
          simp only [updateNoteState] at h
          split_ifs at h <;>
            first
              | exact Or.inl h
              | (rename_i hgate
                 obtain rfl := Option.some.inj h
                 exact Or.inr hgate)
      | SUSTAIN =>
          simp only [updateNoteState] at h
          split_ifs at h <;>
            first
              | exact Or.inl h
              | (rename_i hgate _ _
                 obtain rfl := Option.some.inj h
                 exact Or.inr hgate)
              | (rename_i hgate _
                 obtain rfl := Option.some.inj h
                 exact Or.inr hgate)
              | (rename_i hgate _ _ _
                 obtain rfl := Option.some.inj h
                 exact Or.inr hgate)
      | RELEASE =>
          simp only [updateNoteState] at h
          split_ifs at h <;>
            first
              | exact Or.inl h
              | exact absurd h (by simp)

theorem updateNoteState_attack_capture (st : EngineState) (p : ℚ) (conf : JSNum) (now : ℤ)
    (hns : st.noteState = .ATTACK)
    (hpk : ¬ st.peakEnvelope < st.envelope)
    (h95 : st.envelope < st.peakEnvelope * (19/20))
    (hrel : ((RELEASE_THRESHOLD : ℚ) : ℝ) < st.envelope)
    (hharm : MIN_HARMONIC_CONFIDENCE < st.harmonicConfidence) :
    updateNoteState st (some p) conf now =
      { st with noteState := .SUSTAIN,
                currentNote := some (captureNote p conf st.harmonicConfidence) } := by
  obtain ⟨d, ps, fl, fh, ns, env, pk, cn0, nst, fa, fr, hc, cd⟩ := st
  change ns = .ATTACK at hns
  subst hns
  simp only [updateNoteState]
  rw [if_neg hpk, if_pos ⟨h95, hrel⟩, if_pos hharm]

theorem updateNoteState_sustain_none (st : EngineState) (conf : JSNum) (now : ℤ)
    (hns : st.noteState = .SUSTAIN) :
    ((¬ st.envelope < ((RELEASE_THRESHOLD : ℚ) : ℝ)) →
      updateNoteState st none conf now = { st with framesSinceRelease := 0 }) ∧
    ((st.envelope < ((RELEASE_THRESHOLD : ℚ) : ℝ)) →
      (st.framesSinceRelease + 1 < RELEASE_HYSTERESIS_FRAMES →
        updateNoteState st none conf now =
          { st with framesSinceRelease := st.framesSinceRelease + 1 }) ∧
      (RELEASE_HYSTERESIS_FRAMES ≤ st.framesSinceRelease + 1 →
        updateNoteState st none conf now =
          { st with noteState := .RELEASE, framesSinceRelease := 0 })) := by
  obtain ⟨d, ps, fl, fh, ns, env, pk, cn0, nst, fa, fr, hc, cd⟩ := st
  change ns = .SUSTAIN at hns
  subst hns
  simp only [updateNoteState]
  refine ⟨fun hnr => ?_, fun hr => ⟨fun hlt => ?_, fun hge => ?_⟩⟩
  · rw [if_neg hnr]
  · rw [if_pos hr, if_neg (by omega)]
  · rw [if_pos hr, if_pos hge]

/-! ### Claim C5: the cooldown controller -/

theorem cooldown_run (sr : ℚ) :
    ∀ (fs : List Frame) (st : EngineState), st.isDetecting = true →
      fs.length ≤ st.cooldownFrames →
      (∀ e ∈ (runTicks sr st fs).2, e = none) ∧
      (runTicks sr st fs).1.cooldownFrames = st.cooldownFrames - fs.length ∧
      (runTicks sr st fs).1.noteState = st.noteState ∧
      (runTicks sr st fs).1.currentNote = st.currentNote ∧
      (runTicks sr st fs).1.isDetecting = true := by
  intro fs
  induction fs with
  | nil =>
      intro st hd _
      exact ⟨by simp [runTicks], by simp [runTicks], rfl, rfl, hd⟩
  | cons f rest ih =>
      intro st hd hlen
      simp only [List.length_cons] at hlen
      have hc : 0 < st.cooldownFrames := by omega
      have hstep : detectPitch sr st f =
          ({ envFluxUpdate st f with cooldownFrames := st.cooldownFrames - 1 }, none) :=
        detectPitch_cooldown hd hc
      have hnext : (detectPitch sr st f).1 =
          { envFluxUpdate st f with cooldownFrames := st.cooldownFrames - 1 } := by
        rw [hstep]
      obtain ⟨ih1, ih2, ih3, ih4, ih5⟩ := ih (detectPitch sr st f).1
        (by rw [hnext]; exact hd) (by rw [hnext]; show rest.length ≤ st.cooldownFrames - 1; omega)
      simp only [runTicks]
      refine ⟨?_, ?_, ?_, ?_, ih5⟩
      · intro e he
        simp only [List.mem_cons] at he
        rcases he with he | he
        · rw [he, hstep]
        · exact ih1 e he
      · rw [ih2, hnext]
        show st.cooldownFrames - 1 - rest.length = st.cooldownFrames - (rest.length + 1)
        omega
      · rw [ih3, hnext]; rfl
      · rw [ih4, hnext]; rfl

/-- C5: `triggerCooldown()` (the `clearRecentNotes` operation) forces the
machine into SILENCE with the candidate cleared and the countdown at
`COOLDOWN_DURATION`; while the countdown is positive, every tick emits an
absent note event, decrements the countdown by one, and leaves the entire
state machine (state, candidate, hysteresis counters, harmonic confidence)
untouched, bypassing pitch detection; for any input frames, the first
`COOLDOWN_DURATION` ticks after the trigger all emit absent events, after
which the countdown is 0 and a tick with zero countdown runs the full
normal detection path. -/
theorem C5_cooldown :
    (∀ st : EngineState,
        (clearRecentNotes st).noteState = .SILENCE ∧
        (clearRecentNotes st).currentNote = none ∧
        (clearRecentNotes st).cooldownFrames = COOLDOWN_DURATION) ∧
    (∀ (sr : ℚ) (st : EngineState) (f : Frame), st.isDetecting = true →
        0 < st.cooldownFrames →
        (detectPitch sr st f).2 = none ∧
        (detectPitch sr st f).1.cooldownFrames = st.cooldownFrames - 1 ∧
        (detectPitch sr st f).1.noteState = st.noteState ∧
        (detectPitch sr st f).1.currentNote = st.currentNote ∧
        (detectPitch sr st f).1.framesSinceAttack = st.framesSinceAttack ∧
        (detectPitch sr st f).1.framesSinceRelease = st.framesSinceRelease ∧
        (detectPitch sr st f).1.harmonicConfidence = st.harmonicConfidence) ∧
    (∀ (sr : ℚ) (st : EngineState) (fs : List Frame), st.isDetecting = true →
        fs.length ≤ COOLDOWN_DURATION →
        (∀ e ∈ (runTicks sr (clearRecentNotes st) fs).2, e = none) ∧
        (runTicks sr (clearRecentNotes st) fs).1.cooldownFrames =
          COOLDOWN_DURATION - fs.length ∧
        (runTicks sr (clearRecentNotes st) fs).1.noteState = .SILENCE ∧
        (runTicks sr (clearRecentNotes st) fs).1.currentNote = none) ∧
    (∀ (sr : ℚ) (st : EngineState) (f : Frame), st.isDetecting = true →
        st.cooldownFrames = 0 →
        detectPitch sr st f = normalDetectTail sr (envFluxUpdate st f) f) := by
  refine ⟨fun st => ⟨rfl, rfl, rfl⟩, ?_, ?_, ?_⟩
  · intro sr st f hd hc
    rw [detectPitch_cooldown hd hc]
    exact ⟨rfl, rfl, rfl, rfl, rfl, rfl, rfl⟩
  · intro sr st fs hd hlen
    obtain ⟨h1, h2, h3, h4, _⟩ := cooldown_run sr fs (clearRecentNotes st) hd hlen
    exact ⟨h1, h2, h3, h4⟩
  · intro sr st f hd hc
    exact detectPitch_normal hd hc

/-- C5 witness: the theorem applied after triggering the cooldown on a
freshly started engine, with one concrete silent frame. -/
theorem C5_witness :
    (clearRecentNotes exStart).noteState = .SILENCE ∧
    (detectPitch 800 (clearRecentNotes exStart) exSilentFrame).2 = none ∧
    (∀ e ∈ (runTicks 800 (clearRecentNotes exStart) [exSilentFrame]).2, e = none) ∧
    detectPitch 800 exStart exSilentFrame =
      normalDetectTail 800 (envFluxUpdate exStart exSilentFrame) exSilentFrame :=
  ⟨(C5_cooldown.1 exStart).1,
   (C5_cooldown.2.1 800 (clearRecentNotes exStart) exSilentFrame rfl
      (by norm_num [clearRecentNotes, resetState, COOLDOWN_DURATION])).1,
   (C5_cooldown.2.2.1 800 exStart [exSilentFrame] rfl
      (by norm_num [COOLDOWN_DURATION])).1,
   C5_cooldown.2.2.2 800 exStart exSilentFrame rfl rfl⟩

/-! ### Claim C9: silent frames keep the machine in SILENCE -/

theorem silent_tick {sr : ℚ} {st : EngineState} {f : Frame}
    (hS : st.noteState = .SILENCE) (hsil : silentFrame st f) :
    (detectPitch sr st f).1.noteState = .SILENCE ∧ (detectPitch sr st f).2 = none := by
  by_cases hd : st.isDetecting = false
  · rw [detectPitch_not_running hd]
    exact ⟨hS, rfl⟩
  · rw [Bool.not_eq_false] at hd
    by_cases hc : 0 < st.cooldownFrames
    · rw [detectPitch_cooldown hd hc]
      exact ⟨hS, rfl⟩
    · rw [detectPitch_normal hd (by omega)]
      have hupd :=
        (updateNoteState_silence { envFluxUpdate st f with harmonicConfidence := harmOf f sr }
          (pitchInRange (yinPitch f.timeBuffer sr)).1 (pitchInRange (yinPitch f.timeBuffer sr)).2
          f.now hS).2 (fun hq => absurd hq.1 (not_lt.mpr (le_of_lt hsil.2)))
      constructor
      · show (tailState sr (envFluxUpdate st f) f).noteState = .SILENCE
        unfold tailState
        rw [hupd]
        exact hS
      · show emitNoteDetection (tailState sr (envFluxUpdate st f) f) = none
        refine emitNoteDetection_inactive (Or.inl ?_)
        unfold tailState
        rw [hupd]
        exact hS

theorem silent_run_aux (sr : ℚ) :
    ∀ (fs : List Frame) (st : EngineState), st.noteState = .SILENCE →
      SilentRun sr st fs →
      (runTicks sr st fs).1.noteState = .SILENCE ∧
      ∀ e ∈ (runTicks sr st fs).2, e = none := by
  intro fs
  induction fs with
  | nil => intro st hS _; exact ⟨hS, by simp [runTicks]⟩
  | cons f rest ih =>
      intro st hS hrun
      obtain ⟨hf, hrest⟩ := hrun
      obtain ⟨hS', he⟩ :=
        (silent_tick hS hf :
          (detectPitch sr st f).1.noteState = .SILENCE ∧ (detectPitch sr st f).2 = none)
      obtain ⟨ih1, ih2⟩ := ih (detectPitch sr st f).1 hS' hrest
      simp only [runTicks]
      refine ⟨ih1, ?_⟩
      intro e hmem
      simp only [List.mem_cons] at hmem
      rcases hmem with hmem | hmem
      · rw [hmem, he]
      · exact ih2 e hmem

/-- C9: starting from any SILENCE state, if every tick's frame is silent
(smoothed envelope below `ATTACK_THRESHOLD` and spectral flux below the
adaptive onset threshold, measured after that tick's envelope and flux
updates), the detector state remains SILENCE after the whole run and every
emitted note event is absent. -/
theorem C9_silent_run :
    ∀ (sr : ℚ) (st : EngineState) (fs : List Frame), st.noteState = .SILENCE →
      SilentRun sr st fs →
      (runTicks sr st fs).1.noteState = .SILENCE ∧
      ∀ e ∈ (runTicks sr st fs).2, e = none :=
  fun sr st fs => silent_run_aux sr fs st

/-- C9 witness: one concrete silent frame (all-zero window and spectrum)
fed to a freshly started engine. -/
theorem C9_witness :
    (runTicks 800 exStart [exSilentFrame]).1.noteState = .SILENCE ∧
    ∀ e ∈ (runTicks 800 exStart [exSilentFrame]).2, e = none :=
  C9_silent_run 800 exStart [exSilentFrame] rfl
    ⟨⟨by
        show ((envelopeSmoothing : ℚ) : ℝ) * rmsOf exSilentFrame.timeBuffer +
            (1 - ((envelopeSmoothing : ℚ) : ℝ)) * exStart.envelope <
          ((ATTACK_THRESHOLD : ℚ) : ℝ)
        have hz : rmsOf exSilentFrame.timeBuffer = 0 := by
          unfold rmsOf
          have hs : sumSq exSilentFrame.timeBuffer = 0 := by
            norm_num [sumSq, exSilentFrame, zeroBuffer, List.sum_eq_zero_iff]
          rw [hs]
          norm_num [Real.sqrt_zero]
        rw [hz]
        norm_num [exStart, initState, envelopeSmoothing, ATTACK_THRESHOLD],
      by
        show (calculateSpectralFlux exStart.previousSpectrum exStart.fluxHistory
            exSilentFrame.spectrum).1 < adaptiveOnsetThreshold _
        have h0 : (calculateSpectralFlux exStart.previousSpectrum exStart.fluxHistory
            exSilentFrame.spectrum) = (0, some exSilentFrame.spectrum, exStart.fluxHistory) := rfl
        rw [h0]
        unfold adaptiveOnsetThreshold avgFlux
        norm_num [ONSET_THRESHOLD]⟩,
      trivial⟩


/-! ### Claim C3: the note-candidate invariant -/

theorem sqrtQ_eval {q r : ℚ} (h : q = r ^ 2) (hr : 0 ≤ r) :
    Real.sqrt ((q : ℝ)) = ((r : ℚ) : ℝ) := by
  subst h
  push_cast
  exact Real.sqrt_sq (by exact_mod_cast hr)

theorem rmsOf_eval {buf : List ℚ} {r : ℚ} (h : sumSq buf / (buf.length : ℚ) = r ^ 2)
    (hr : 0 ≤ r) : rmsOf buf = ((r : ℚ) : ℝ) := by
  unfold rmsOf
  exact sqrtQ_eval h hr

theorem rmsOf_zeroBuffer : rmsOf zeroBuffer = ((0 : ℚ) : ℝ) :=
  rmsOf_eval (by norm_num [sumSq, zeroBuffer, List.map_replicate, List.sum_replicate]) le_rfl

theorem rmsOf_warmBuffer : rmsOf warmBuffer = ((1/20 : ℚ) : ℝ) :=
  rmsOf_eval
    (by norm_num [sumSq, warmBuffer, List.map_replicate, List.sum_replicate, nsmul_eq_mul])
    (by norm_num)

theorem rmsOf_exPitchBuffer : rmsOf exPitchBuffer = ((1/50 : ℚ) : ℝ) :=
  rmsOf_eval (by norm_num [sumSq, exPitchBuffer]) (by norm_num)

theorem calculateSpectralFlux_nonePrev (hist : List ℝ) (s : List ℕ) :
    calculateSpectralFlux none hist s = (0, some s, hist) := rfl

theorem calculateSpectralFlux_some (p s : List ℕ) (hist : List ℝ) (r : ℚ)
    (h : fluxSumSq p s = r ^ 2) (hr : 0 ≤ r) :
    calculateSpectralFlux (some p) hist s =
      (((r : ℚ) : ℝ), some s,
        if FLUX_HISTORY_SIZE < (hist ++ [((r : ℚ) : ℝ)]).length
        then (hist ++ [((r : ℚ) : ℝ)]).tail
        else hist ++ [((r : ℚ) : ℝ)]) := by
  simp only [calculateSpectralFlux]
  rw [sqrtQ_eval h hr]

theorem pitchInRange_exPitch :
    pitchInRange (yinPitch exPitchBuffer 800) = (some (110400/551 : ℚ), JSNum.fin 1) := by
  rw [yinPitch_exPitchBuffer]
  norm_num [pitchInRange, MIN_FREQUENCY, MAX_FREQUENCY]

theorem harmOf_of_yinNone {f : Frame} {sr : ℚ} (h : yinPitch f.timeBuffer sr = none) :
    harmOf f sr = 0 := by
  unfold harmOf
  rw [h]
  rfl

theorem harmOf_of_pitch {f : Frame} {sr p : ℚ} {c : JSNum}
    (h : pitchInRange (yinPitch f.timeBuffer sr) = (some p, c)) :
    harmOf f sr = calculateHarmonicConfidence f.spectrum p sr f.timeBuffer.length := by
  unfold harmOf
  rw [h]

theorem harm_c3f6 : harmOf c3f6 800 = 40/51 := by
  rw [harmOf_of_pitch
    (show pitchInRange (yinPitch c3f6.timeBuffer 800) = (some (110400/551 : ℚ), JSNum.fin 1) from
      pitchInRange_exPitch)]
  show calculateHarmonicConfidence spec5 (110400/551) 800 14 = 40/51
  norm_num [calculateHarmonicConfidence, harmonicAccum, jsRoundQ, spec5,
    show Int.toNat 4 = 4 from rfl, max_def, min_def]

theorem detectPitch_run (sr : ℚ) (st : EngineState) (f : Frame)
    (hd : st.isDetecting = true) (hc : st.cooldownFrames = 0) :
    (detectPitch sr st f).1 = tailState sr (envFluxUpdate st f) f := by
  rw [detectPitch_normal hd hc]
  rfl

theorem c3tick1 : (detectPitch 800 exStart c3f1).1 = c3st1 := by
  rw [detectPitch_run 800 exStart c3f1 rfl rfl]
  unfold tailState
  have henv : envFluxUpdate exStart c3f1 = ({ exStart with
      envelope := ((3/200 : ℚ) : ℝ)
      spectralFlux := ((0 : ℚ) : ℝ)
      previousSpectrum := some spec0
      fluxHistory := [] } : EngineState) := by
    unfold envFluxUpdate
    rw [show exStart.previousSpectrum = none from rfl,
        show exStart.fluxHistory = ([] : List ℝ) from rfl,
        show c3f1.spectrum = spec0 from rfl,
        show c3f1.timeBuffer = warmBuffer from rfl,
        rmsOf_warmBuffer,
        calculateSpectralFlux_nonePrev]
    norm_num [EngineState.mk.injEq, exStart, exStart, initState, FLUX_HISTORY_SIZE, envelopeSmoothing, List.tail]
  rw [henv,
      harmOf_of_yinNone (show yinPitch c3f1.timeBuffer 800 = none from
        yinPitch_replicate 14 (1/20) 800),
      show pitchInRange (yinPitch c3f1.timeBuffer 800) = (none, JSNum.fin 0) from by
        rw [show yinPitch c3f1.timeBuffer 800 = none from yinPitch_replicate 14 (1/20) 800]
        rfl]
  show updateNoteState ({ exStart with
      envelope := ((3/200 : ℚ) : ℝ)
      spectralFlux := ((0 : ℚ) : ℝ)
      previousSpectrum := some spec0
      fluxHistory := []
      harmonicConfidence := 0 } : EngineState) none (JSNum.fin 0) c3f1.now = c3st1
  rw [(updateNoteState_silence ({ exStart with
      envelope := ((3/200 : ℚ) : ℝ)
      spectralFlux := ((0 : ℚ) : ℝ)
      previousSpectrum := some spec0
      fluxHistory := []
      harmonicConfidence := 0 } : EngineState) none (JSNum.fin 0) c3f1.now rfl).2
      (fun hq => absurd hq.1 (by norm_num [exStart, exStart, initState, adaptiveOnsetThreshold, avgFlux, ONSET_THRESHOLD,
          ATTACK_THRESHOLD, max_lt_iff]))]
  rfl

theorem c3tick2 : (detectPitch 800 c3st1 c3f2).1 = c3st2 := by
  rw [detectPitch_run 800 c3st1 c3f2 rfl rfl]
  unfold tailState
  have henv : envFluxUpdate c3st1 c3f2 = ({ c3st1 with
      envelope := ((51/2000 : ℚ) : ℝ)
      spectralFlux := ((0 : ℚ) : ℝ)
      previousSpectrum := some spec0
      fluxHistory := [((0 : ℚ) : ℝ)] } : EngineState) := by
    unfold envFluxUpdate
    rw [show c3st1.previousSpectrum = some spec0 from rfl,
        show c3st1.fluxHistory = [] from rfl,
        show c3f2.spectrum = spec0 from rfl,
        show c3f2.timeBuffer = warmBuffer from rfl,
        rmsOf_warmBuffer,
        calculateSpectralFlux_some spec0 spec0 [] (0)
        (by norm_num [fluxSumSq, List.range_succ,
          show spec0 = ([0,0,0,0,0,0,0] : List ℕ) from rfl, spec3, spec4, spec5]) (by norm_num)]
    norm_num [EngineState.mk.injEq, c3st1, exStart, initState, FLUX_HISTORY_SIZE, envelopeSmoothing, List.tail]
  rw [henv,
      harmOf_of_yinNone (show yinPitch c3f2.timeBuffer 800 = none from
        yinPitch_replicate 14 (1/20) 800),
      show pitchInRange (yinPitch c3f2.timeBuffer 800) = (none, JSNum.fin 0) from by
        rw [show yinPitch c3f2.timeBuffer 800 = none from yinPitch_replicate 14 (1/20) 800]
        rfl]
  show updateNoteState ({ c3st1 with
      envelope := ((51/2000 : ℚ) : ℝ)
      spectralFlux := ((0 : ℚ) : ℝ)
      previousSpectrum := some spec0
      fluxHistory := [((0 : ℚ) : ℝ)]
      harmonicConfidence := 0 } : EngineState) none (JSNum.fin 0) c3f2.now = c3st2
  rw [(updateNoteState_silence ({ c3st1 with
      envelope := ((51/2000 : ℚ) : ℝ)
      spectralFlux := ((0 : ℚ) : ℝ)
      previousSpectrum := some spec0
      fluxHistory := [((0 : ℚ) : ℝ)]
      harmonicConfidence := 0 } : EngineState) none (JSNum.fin 0) c3f2.now rfl).2
      (fun hq => absurd hq.1 (by norm_num [c3st1, exStart, initState, adaptiveOnsetThreshold, avgFlux, ONSET_THRESHOLD,
          ATTACK_THRESHOLD, max_lt_iff]))]
  rfl

theorem c3tick3 : (detectPitch 800 c3st2 c3f3).1 = c3st3 := by
  rw [detectPitch_run 800 c3st2 c3f3 rfl rfl]
  unfold tailState
  have henv : envFluxUpdate c3st2 c3f3 = ({ c3st2 with
      envelope := ((657/20000 : ℚ) : ℝ)
      spectralFlux := ((20/51 : ℚ) : ℝ)
      previousSpectrum := some spec3
      fluxHistory := [((0 : ℚ) : ℝ), ((20/51 : ℚ) : ℝ)] } : EngineState) := by
    unfold envFluxUpdate
    rw [show c3st2.previousSpectrum = some spec0 from rfl,
        show c3st2.fluxHistory = [((0 : ℚ) : ℝ)] from rfl,
        show c3f3.spectrum = spec3 from rfl,
        show c3f3.timeBuffer = warmBuffer from rfl,
        rmsOf_warmBuffer,
        calculateSpectralFlux_some spec0 spec3 [((0 : ℚ) : ℝ)] (20/51)
        (by norm_num [fluxSumSq, List.range_succ,
          show spec0 = ([0,0,0,0,0,0,0] : List ℕ) from rfl, spec3, spec4, spec5]) (by norm_num)]
    norm_num [EngineState.mk.injEq, c3st2, exStart, initState, FLUX_HISTORY_SIZE, envelopeSmoothing, List.tail]
  rw [henv,
      harmOf_of_yinNone (show yinPitch c3f3.timeBuffer 800 = none from
        yinPitch_replicate 14 (1/20) 800),
      show pitchInRange (yinPitch c3f3.timeBuffer 800) = (none, JSNum.fin 0) from by
        rw [show yinPitch c3f3.timeBuffer 800 = none from yinPitch_replicate 14 (1/20) 800]
        rfl]
  show updateNoteState ({ c3st2 with
      envelope := ((657/20000 : ℚ) : ℝ)
      spectralFlux := ((20/51 : ℚ) : ℝ)
      previousSpectrum := some spec3
      fluxHistory := [((0 : ℚ) : ℝ), ((20/51 : ℚ) : ℝ)]
      harmonicConfidence := 0 } : EngineState) none (JSNum.fin 0) c3f3.now = c3st3
  rw [((updateNoteState_silence ({ c3st2 with
      envelope := ((657/20000 : ℚ) : ℝ)
      spectralFlux := ((20/51 : ℚ) : ℝ)
      previousSpectrum := some spec3
      fluxHistory := [((0 : ℚ) : ℝ), ((20/51 : ℚ) : ℝ)]
      harmonicConfidence := 0 } : EngineState) none (JSNum.fin 0) c3f3.now rfl).1
      ⟨by norm_num [c3st2, exStart, initState, adaptiveOnsetThreshold, avgFlux, ONSET_THRESHOLD,
          ATTACK_THRESHOLD, max_lt_iff],
       by norm_num [ATTACK_THRESHOLD]⟩).1
      (by norm_num [c3st2, ATTACK_HYSTERESIS_FRAMES])]
  rfl

theorem c3tick4 : (detectPitch 800 c3st3 c3f4).1 = c3st4 := by
  rw [detectPitch_run 800 c3st3 c3f4 rfl rfl]
  unfold tailState
  have henv : envFluxUpdate c3st3 c3f4 = ({ c3st3 with
      envelope := ((7599/200000 : ℚ) : ℝ)
      spectralFlux := ((40/51 : ℚ) : ℝ)
      previousSpectrum := some spec4
      fluxHistory := [((0 : ℚ) : ℝ), ((20/51 : ℚ) : ℝ), ((40/51 : ℚ) : ℝ)] } : EngineState) := by
    unfold envFluxUpdate
    rw [show c3st3.previousSpectrum = some spec3 from rfl,
        show c3st3.fluxHistory = [((0 : ℚ) : ℝ), ((20/51 : ℚ) : ℝ)] from rfl,
        show c3f4.spectrum = spec4 from rfl,
        show c3f4.timeBuffer = warmBuffer from rfl,
        rmsOf_warmBuffer,
        calculateSpectralFlux_some spec3 spec4 [((0 : ℚ) : ℝ), ((20/51 : ℚ) : ℝ)] (40/51)
        (by norm_num [fluxSumSq, List.range_succ,
          show spec0 = ([0,0,0,0,0,0,0] : List ℕ) from rfl, spec3, spec4, spec5]) (by norm_num)]
    norm_num [EngineState.mk.injEq, c3st3, exStart, initState, FLUX_HISTORY_SIZE, envelopeSmoothing, List.tail]
  rw [henv,
      harmOf_of_yinNone (show yinPitch c3f4.timeBuffer 800 = none from
        yinPitch_replicate 14 (1/20) 800),
      show pitchInRange (yinPitch c3f4.timeBuffer 800) = (none, JSNum.fin 0) from by
        rw [show yinPitch c3f4.timeBuffer 800 = none from yinPitch_replicate 14 (1/20) 800]
        rfl]
  show updateNoteState ({ c3st3 with
      envelope := ((7599/200000 : ℚ) : ℝ)
      spectralFlux := ((40/51 : ℚ) : ℝ)
      previousSpectrum := some spec4
      fluxHistory := [((0 : ℚ) : ℝ), ((20/51 : ℚ) : ℝ), ((40/51 : ℚ) : ℝ)]
      harmonicConfidence := 0 } : EngineState) none (JSNum.fin 0) c3f4.now = c3st4
  rw [((updateNoteState_silence ({ c3st3 with
      envelope := ((7599/200000 : ℚ) : ℝ)
      spectralFlux := ((40/51 : ℚ) : ℝ)
      previousSpectrum := some spec4
      fluxHistory := [((0 : ℚ) : ℝ), ((20/51 : ℚ) : ℝ), ((40/51 : ℚ) : ℝ)]
      harmonicConfidence := 0 } : EngineState) none (JSNum.fin 0) c3f4.now rfl).1
      ⟨by norm_num [c3st3, exStart, initState, adaptiveOnsetThreshold, avgFlux, ONSET_THRESHOLD,
          ATTACK_THRESHOLD, max_lt_iff],
       by norm_num [ATTACK_THRESHOLD]⟩).1
      (by norm_num [c3st3, ATTACK_HYSTERESIS_FRAMES])]
  rfl

theorem c3tick5 : (detectPitch 800 c3st4 c3f5).1 = c3st5 := by
  rw [detectPitch_run 800 c3st4 c3f5 rfl rfl]
  unfold tailState
  have henv : envFluxUpdate c3st4 c3f5 = ({ c3st4 with
      envelope := ((83193/2000000 : ℚ) : ℝ)
      spectralFlux := ((40/51 : ℚ) : ℝ)
      previousSpectrum := some spec5
      fluxHistory := [((0 : ℚ) : ℝ), ((20/51 : ℚ) : ℝ), ((40/51 : ℚ) : ℝ), ((40/51 : ℚ) : ℝ)] } : EngineState) := by
    unfold envFluxUpdate
    rw [show c3st4.previousSpectrum = some spec4 from rfl,
        show c3st4.fluxHistory = [((0 : ℚ) : ℝ), ((20/51 : ℚ) : ℝ), ((40/51 : ℚ) : ℝ)] from rfl,
        show c3f5.spectrum = spec5 from rfl,
        show c3f5.timeBuffer = warmBuffer from rfl,
        rmsOf_warmBuffer,
        calculateSpectralFlux_some spec4 spec5 [((0 : ℚ) : ℝ), ((20/51 : ℚ) : ℝ), ((40/51 : ℚ) : ℝ)] (40/51)
        (by norm_num [fluxSumSq, List.range_succ,
          show spec0 = ([0,0,0,0,0,0,0] : List ℕ) from rfl, spec3, spec4, spec5]) (by norm_num)]
    norm_num [EngineState.mk.injEq, c3st4, exStart, initState, FLUX_HISTORY_SIZE, envelopeSmoothing, List.tail]
  rw [henv,
      harmOf_of_yinNone (show yinPitch c3f5.timeBuffer 800 = none from
        yinPitch_replicate 14 (1/20) 800),
      show pitchInRange (yinPitch c3f5.timeBuffer 800) = (none, JSNum.fin 0) from by
        rw [show yinPitch c3f5.timeBuffer 800 = none from yinPitch_replicate 14 (1/20) 800]
        rfl]
  show updateNoteState ({ c3st4 with
      envelope := ((83193/2000000 : ℚ) : ℝ)
      spectralFlux := ((40/51 : ℚ) : ℝ)
      previousSpectrum := some spec5
      fluxHistory := [((0 : ℚ) : ℝ), ((20/51 : ℚ) : ℝ), ((40/51 : ℚ) : ℝ), ((40/51 : ℚ) : ℝ)]
      harmonicConfidence := 0 } : EngineState) none (JSNum.fin 0) c3f5.now = c3st5
  rw [((updateNoteState_silence ({ c3st4 with
      envelope := ((83193/2000000 : ℚ) : ℝ)
      spectralFlux := ((40/51 : ℚ) : ℝ)
      previousSpectrum := some spec5
      fluxHistory := [((0 : ℚ) : ℝ), ((20/51 : ℚ) : ℝ), ((40/51 : ℚ) : ℝ), ((40/51 : ℚ) : ℝ)]
      harmonicConfidence := 0 } : EngineState) none (JSNum.fin 0) c3f5.now rfl).1
      ⟨by norm_num [c3st4, exStart, initState, adaptiveOnsetThreshold, avgFlux, ONSET_THRESHOLD,
          ATTACK_THRESHOLD, max_lt_iff],
       by norm_num [ATTACK_THRESHOLD]⟩).2
      (by norm_num [c3st4, ATTACK_HYSTERESIS_FRAMES])]
  rfl

theorem c3tick6 : (detectPitch 800 c3st5 c3f6).1 = c3st6 := by
  rw [detectPitch_run 800 c3st5 c3f6 rfl rfl]
  unfold tailState
  have henv : envFluxUpdate c3st5 c3f6 = ({ c3st5 with
      envelope := ((702351/20000000 : ℚ) : ℝ)
      spectralFlux := ((0 : ℚ) : ℝ)
      previousSpectrum := some spec5
      fluxHistory := [((0 : ℚ) : ℝ), ((20/51 : ℚ) : ℝ), ((40/51 : ℚ) : ℝ), ((40/51 : ℚ) : ℝ), ((0 : ℚ) : ℝ)] } : EngineState) := by
    unfold envFluxUpdate
    rw [show c3st5.previousSpectrum = some spec5 from rfl,
        show c3st5.fluxHistory = [((0 : ℚ) : ℝ), ((20/51 : ℚ) : ℝ), ((40/51 : ℚ) : ℝ), ((40/51 : ℚ) : ℝ)] from rfl,
        show c3f6.spectrum = spec5 from rfl,
        show c3f6.timeBuffer = exPitchBuffer from rfl,
        rmsOf_exPitchBuffer,
        calculateSpectralFlux_some spec5 spec5 [((0 : ℚ) : ℝ), ((20/51 : ℚ) : ℝ), ((40/51 : ℚ) : ℝ), ((40/51 : ℚ) : ℝ)] (0)
        (by norm_num [fluxSumSq, List.range_succ,
          show spec0 = ([0,0,0,0,0,0,0] : List ℕ) from rfl, spec3, spec4, spec5]) (by norm_num)]
    norm_num [EngineState.mk.injEq, c3st5, exStart, initState, FLUX_HISTORY_SIZE, envelopeSmoothing, List.tail]
  rw [henv,
      harm_c3f6,
      show pitchInRange (yinPitch c3f6.timeBuffer 800) = (some (110400/551 : ℚ), JSNum.fin 1) from pitchInRange_exPitch]
  show updateNoteState ({ c3st5 with
      envelope := ((702351/20000000 : ℚ) : ℝ)
      spectralFlux := ((0 : ℚ) : ℝ)
      previousSpectrum := some spec5
      fluxHistory := [((0 : ℚ) : ℝ), ((20/51 : ℚ) : ℝ), ((40/51 : ℚ) : ℝ), ((40/51 : ℚ) : ℝ), ((0 : ℚ) : ℝ)]
      harmonicConfidence := 40/51 } : EngineState) (some (110400/551 : ℚ)) (JSNum.fin 1) c3f6.now = c3st6
  rw [updateNoteState_attack_capture ({ c3st5 with
      envelope := ((702351/20000000 : ℚ) : ℝ)
      spectralFlux := ((0 : ℚ) : ℝ)
      previousSpectrum := some spec5
      fluxHistory := [((0 : ℚ) : ℝ), ((20/51 : ℚ) : ℝ), ((40/51 : ℚ) : ℝ), ((40/51 : ℚ) : ℝ), ((0 : ℚ) : ℝ)]
      harmonicConfidence := 40/51 } : EngineState) (110400/551 : ℚ)
      (JSNum.fin 1) c3f6.now rfl (by norm_num [c3st5]) (by norm_num [c3st5])
      (by norm_num [RELEASE_THRESHOLD]) (by norm_num [MIN_HARMONIC_CONFIDENCE])]
  rfl

theorem c3tick7 : (detectPitch 800 c3st6 c3f7).1 = c3st7 := by
  rw [detectPitch_run 800 c3st6 c3f7 rfl rfl]
  unfold tailState
  have henv : envFluxUpdate c3st6 c3f7 = ({ c3st6 with
      envelope := ((4916457/200000000 : ℚ) : ℝ)
      spectralFlux := ((0 : ℚ) : ℝ)
      previousSpectrum := some spec5
      fluxHistory := [((20/51 : ℚ) : ℝ), ((40/51 : ℚ) : ℝ), ((40/51 : ℚ) : ℝ), ((0 : ℚ) : ℝ), ((0 : ℚ) : ℝ)] } : EngineState) := by
    unfold envFluxUpdate
    rw [show c3st6.previousSpectrum = some spec5 from rfl,
        show c3st6.fluxHistory = [((0 : ℚ) : ℝ), ((20/51 : ℚ) : ℝ), ((40/51 : ℚ) : ℝ), ((40/51 : ℚ) : ℝ), ((0 : ℚ) : ℝ)] from rfl,
        show c3f7.spectrum = spec5 from rfl,
        show c3f7.timeBuffer = zeroBuffer from rfl,
        rmsOf_zeroBuffer,
        calculateSpectralFlux_some spec5 spec5 [((0 : ℚ) : ℝ), ((20/51 : ℚ) : ℝ), ((40/51 : ℚ) : ℝ), ((40/51 : ℚ) : ℝ), ((0 : ℚ) : ℝ)] (0)
        (by norm_num [fluxSumSq, List.range_succ,
          show spec0 = ([0,0,0,0,0,0,0] : List ℕ) from rfl, spec3, spec4, spec5]) (by norm_num)]
    norm_num [EngineState.mk.injEq, c3st6, exStart, initState, FLUX_HISTORY_SIZE, envelopeSmoothing, List.tail]
  rw [henv,
      harmOf_of_yinNone (show yinPitch c3f7.timeBuffer 800 = none from
        yinPitch_replicate 14 0 800),
      show pitchInRange (yinPitch c3f7.timeBuffer 800) = (none, JSNum.fin 0) from by
        rw [show yinPitch c3f7.timeBuffer 800 = none from yinPitch_replicate 14 0 800]
        rfl]
  show updateNoteState ({ c3st6 with
      envelope := ((4916457/200000000 : ℚ) : ℝ)
      spectralFlux := ((0 : ℚ) : ℝ)
      previousSpectrum := some spec5
      fluxHistory := [((20/51 : ℚ) : ℝ), ((40/51 : ℚ) : ℝ), ((40/51 : ℚ) : ℝ), ((0 : ℚ) : ℝ), ((0 : ℚ) : ℝ)]
      harmonicConfidence := 0 } : EngineState) none (JSNum.fin 0) c3f7.now = c3st7
  rw [(updateNoteState_sustain_none ({ c3st6 with
      envelope := ((4916457/200000000 : ℚ) : ℝ)
      spectralFlux := ((0 : ℚ) : ℝ)
      previousSpectrum := some spec5
      fluxHistory := [((20/51 : ℚ) : ℝ), ((40/51 : ℚ) : ℝ), ((40/51 : ℚ) : ℝ), ((0 : ℚ) : ℝ), ((0 : ℚ) : ℝ)]
      harmonicConfidence := 0 } : EngineState) (JSNum.fin 0) c3f7.now rfl).1
      (by norm_num [RELEASE_THRESHOLD])]
  rfl

theorem c3tick8 : (detectPitch 800 c3st7 c3f8).1 = c3st8 := by
  rw [detectPitch_run 800 c3st7 c3f8 rfl rfl]
  unfold tailState
  have henv : envFluxUpdate c3st7 c3f8 = ({ c3st7 with
      envelope := ((34415199/2000000000 : ℚ) : ℝ)
      spectralFlux := ((0 : ℚ) : ℝ)
      previousSpectrum := some spec5
      fluxHistory := [((40/51 : ℚ) : ℝ), ((40/51 : ℚ) : ℝ), ((0 : ℚ) : ℝ), ((0 : ℚ) : ℝ), ((0 : ℚ) : ℝ)] } : EngineState) := by
    unfold envFluxUpdate
    rw [show c3st7.previousSpectrum = some spec5 from rfl,
        show c3st7.fluxHistory = [((20/51 : ℚ) : ℝ), ((40/51 : ℚ) : ℝ), ((40/51 : ℚ) : ℝ), ((0 : ℚ) : ℝ), ((0 : ℚ) : ℝ)] from rfl,
        show c3f8.spectrum = spec5 from rfl,
        show c3f8.timeBuffer = zeroBuffer from rfl,
        rmsOf_zeroBuffer,
        calculateSpectralFlux_some spec5 spec5 [((20/51 : ℚ) : ℝ), ((40/51 : ℚ) : ℝ), ((40/51 : ℚ) : ℝ), ((0 : ℚ) : ℝ), ((0 : ℚ) : ℝ)] (0)
        (by norm_num [fluxSumSq, List.range_succ,
          show spec0 = ([0,0,0,0,0,0,0] : List ℕ) from rfl, spec3, spec4, spec5]) (by norm_num)]
    norm_num [EngineState.mk.injEq, c3st7, exStart, initState, FLUX_HISTORY_SIZE, envelopeSmoothing, List.tail]
  rw [henv,
      harmOf_of_yinNone (show yinPitch c3f8.timeBuffer 800 = none from
        yinPitch_replicate 14 0 800),
      show pitchInRange (yinPitch c3f8.timeBuffer 800) = (none, JSNum.fin 0) from by
        rw [show yinPitch c3f8.timeBuffer 800 = none from yinPitch_replicate 14 0 800]
        rfl]
  show updateNoteState ({ c3st7 with
      envelope := ((34415199/2000000000 : ℚ) : ℝ)
      spectralFlux := ((0 : ℚ) : ℝ)
      previousSpectrum := some spec5
      fluxHistory := [((40/51 : ℚ) : ℝ), ((40/51 : ℚ) : ℝ), ((0 : ℚ) : ℝ), ((0 : ℚ) : ℝ), ((0 : ℚ) : ℝ)]
      harmonicConfidence := 0 } : EngineState) none (JSNum.fin 0) c3f8.now = c3st8
  rw [(updateNoteState_sustain_none ({ c3st7 with
      envelope := ((34415199/2000000000 : ℚ) : ℝ)
      spectralFlux := ((0 : ℚ) : ℝ)
      previousSpectrum := some spec5
      fluxHistory := [((40/51 : ℚ) : ℝ), ((40/51 : ℚ) : ℝ), ((0 : ℚ) : ℝ), ((0 : ℚ) : ℝ), ((0 : ℚ) : ℝ)]
      harmonicConfidence := 0 } : EngineState) (JSNum.fin 0) c3f8.now rfl).1
      (by norm_num [RELEASE_THRESHOLD])]
  rfl

theorem c3tick9 : (detectPitch 800 c3st8 c3f9).1 = c3st9 := by
  rw [detectPitch_run 800 c3st8 c3f9 rfl rfl]
  unfold tailState
  have henv : envFluxUpdate c3st8 c3f9 = ({ c3st8 with
      envelope := ((240906393/20000000000 : ℚ) : ℝ)
      spectralFlux := ((0 : ℚ) : ℝ)
      previousSpectrum := some spec5
      fluxHistory := [((40/51 : ℚ) : ℝ), ((0 : ℚ) : ℝ), ((0 : ℚ) : ℝ), ((0 : ℚ) : ℝ), ((0 : ℚ) : ℝ)] } : EngineState) := by
    unfold envFluxUpdate
    rw [show c3st8.previousSpectrum = some spec5 from rfl,
        show c3st8.fluxHistory = [((40/51 : ℚ) : ℝ), ((40/51 : ℚ) : ℝ), ((0 : ℚ) : ℝ), ((0 : ℚ) : ℝ), ((0 : ℚ) : ℝ)] from rfl,
        show c3f9.spectrum = spec5 from rfl,
        show c3f9.timeBuffer = zeroBuffer from rfl,
        rmsOf_zeroBuffer,
        calculateSpectralFlux_some spec5 spec5 [((40/51 : ℚ) : ℝ), ((40/51 : ℚ) : ℝ), ((0 : ℚ) : ℝ), ((0 : ℚ) : ℝ), ((0 : ℚ) : ℝ)] (0)
        (by norm_num [fluxSumSq, List.range_succ,
          show spec0 = ([0,0,0,0,0,0,0] : List ℕ) from rfl, spec3, spec4, spec5]) (by norm_num)]
    norm_num [EngineState.mk.injEq, c3st8, exStart, initState, FLUX_HISTORY_SIZE, envelopeSmoothing, List.tail]
  rw [henv,
      harmOf_of_yinNone (show yinPitch c3f9.timeBuffer 800 = none from
        yinPitch_replicate 14 0 800),
      show pitchInRange (yinPitch c3f9.timeBuffer 800) = (none, JSNum.fin 0) from by
        rw [show yinPitch c3f9.timeBuffer 800 = none from yinPitch_replicate 14 0 800]
        rfl]
  show updateNoteState ({ c3st8 with
      envelope := ((240906393/20000000000 : ℚ) : ℝ)
      spectralFlux := ((0 : ℚ) : ℝ)
      previousSpectrum := some spec5
      fluxHistory := [((40/51 : ℚ) : ℝ), ((0 : ℚ) : ℝ), ((0 : ℚ) : ℝ), ((0 : ℚ) : ℝ), ((0 : ℚ) : ℝ)]
      harmonicConfidence := 0 } : EngineState) none (JSNum.fin 0) c3f9.now = c3st9
  rw [(updateNoteState_sustain_none ({ c3st8 with
      envelope := ((240906393/20000000000 : ℚ) : ℝ)
      spectralFlux := ((0 : ℚ) : ℝ)
      previousSpectrum := some spec5
      fluxHistory := [((40/51 : ℚ) : ℝ), ((0 : ℚ) : ℝ), ((0 : ℚ) : ℝ), ((0 : ℚ) : ℝ), ((0 : ℚ) : ℝ)]
      harmonicConfidence := 0 } : EngineState) (JSNum.fin 0) c3f9.now rfl).1
      (by norm_num [RELEASE_THRESHOLD])]
  rfl

theorem c3tick10 : (detectPitch 800 c3st9 c3f10).1 = c3st10 := by
  rw [detectPitch_run 800 c3st9 c3f10 rfl rfl]
  unfold tailState
  have henv : envFluxUpdate c3st9 c3f10 = ({ c3st9 with
      envelope := ((1686344751/200000000000 : ℚ) : ℝ)
      spectralFlux := ((0 : ℚ) : ℝ)
      previousSpectrum := some spec5
      fluxHistory := [((0 : ℚ) : ℝ), ((0 : ℚ) : ℝ), ((0 : ℚ) : ℝ), ((0 : ℚ) : ℝ), ((0 : ℚ) : ℝ)] } : EngineState) := by
    unfold envFluxUpdate
    rw [show c3st9.previousSpectrum = some spec5 from rfl,
        show c3st9.fluxHistory = [((40/51 : ℚ) : ℝ), ((0 : ℚ) : ℝ), ((0 : ℚ) : ℝ), ((0 : ℚ) : ℝ), ((0 : ℚ) : ℝ)] from rfl,
        show c3f10.spectrum = spec5 from rfl,
        show c3f10.timeBuffer = zeroBuffer from rfl,
        rmsOf_zeroBuffer,
        calculateSpectralFlux_some spec5 spec5 [((40/51 : ℚ) : ℝ), ((0 : ℚ) : ℝ), ((0 : ℚ) : ℝ), ((0 : ℚ) : ℝ), ((0 : ℚ) : ℝ)] (0)
        (by norm_num [fluxSumSq, List.range_succ,
          show spec0 = ([0,0,0,0,0,0,0] : List ℕ) from rfl, spec3, spec4, spec5]) (by norm_num)]
    norm_num [EngineState.mk.injEq, c3st9, exStart, initState, FLUX_HISTORY_SIZE, envelopeSmoothing, List.tail]
  rw [henv,
      harmOf_of_yinNone (show yinPitch c3f10.timeBuffer 800 = none from
        yinPitch_replicate 14 0 800),
      show pitchInRange (yinPitch c3f10.timeBuffer 800) = (none, JSNum.fin 0) from by
        rw [show yinPitch c3f10.timeBuffer 800 = none from yinPitch_replicate 14 0 800]
        rfl]
  show updateNoteState ({ c3st9 with
      envelope := ((1686344751/200000000000 : ℚ) : ℝ)
      spectralFlux := ((0 : ℚ) : ℝ)
      previousSpectrum := some spec5
      fluxHistory := [((0 : ℚ) : ℝ), ((0 : ℚ) : ℝ), ((0 : ℚ) : ℝ), ((0 : ℚ) : ℝ), ((0 : ℚ) : ℝ)]
      harmonicConfidence := 0 } : EngineState) none (JSNum.fin 0) c3f10.now = c3st10
  rw [((updateNoteState_sustain_none ({ c3st9 with
      envelope := ((1686344751/200000000000 : ℚ) : ℝ)
      spectralFlux := ((0 : ℚ) : ℝ)
      previousSpectrum := some spec5
      fluxHistory := [((0 : ℚ) : ℝ), ((0 : ℚ) : ℝ), ((0 : ℚ) : ℝ), ((0 : ℚ) : ℝ), ((0 : ℚ) : ℝ)]
      harmonicConfidence := 0 } : EngineState) (JSNum.fin 0) c3f10.now rfl).2
      (by norm_num [RELEASE_THRESHOLD])).1
      (by norm_num [c3st9, RELEASE_HYSTERESIS_FRAMES])]
  rfl

theorem c3tick11 : (detectPitch 800 c3st10 c3f11).1 = c3st11 := by
  rw [detectPitch_run 800 c3st10 c3f11 rfl rfl]
  unfold tailState
  have henv : envFluxUpdate c3st10 c3f11 = ({ c3st10 with
      envelope := ((11804413257/2000000000000 : ℚ) : ℝ)
      spectralFlux := ((0 : ℚ) : ℝ)
      previousSpectrum := some spec5
      fluxHistory := [((0 : ℚ) : ℝ), ((0 : ℚ) : ℝ), ((0 : ℚ) : ℝ), ((0 : ℚ) : ℝ), ((0 : ℚ) : ℝ)] } : EngineState) := by
    unfold envFluxUpdate
    rw [show c3st10.previousSpectrum = some spec5 from rfl,
        show c3st10.fluxHistory = [((0 : ℚ) : ℝ), ((0 : ℚ) : ℝ), ((0 : ℚ) : ℝ), ((0 : ℚ) : ℝ), ((0 : ℚ) : ℝ)] from rfl,
        show c3f11.spectrum = spec5 from rfl,
        show c3f11.timeBuffer = zeroBuffer from rfl,
        rmsOf_zeroBuffer,
        calculateSpectralFlux_some spec5 spec5 [((0 : ℚ) : ℝ), ((0 : ℚ) : ℝ), ((0 : ℚ) : ℝ), ((0 : ℚ) : ℝ), ((0 : ℚ) : ℝ)] (0)
        (by norm_num [fluxSumSq, List.range_succ,
          show spec0 = ([0,0,0,0,0,0,0] : List ℕ) from rfl, spec3, spec4, spec5]) (by norm_num)]
    norm_num [EngineState.mk.injEq, c3st10, exStart, initState, FLUX_HISTORY_SIZE, envelopeSmoothing, List.tail]
  rw [henv,
      harmOf_of_yinNone (show yinPitch c3f11.timeBuffer 800 = none from
        yinPitch_replicate 14 0 800),
      show pitchInRange (yinPitch c3f11.timeBuffer 800) = (none, JSNum.fin 0) from by
        rw [show yinPitch c3f11.timeBuffer 800 = none from yinPitch_replicate 14 0 800]
        rfl]
  show updateNoteState ({ c3st10 with
      envelope := ((11804413257/2000000000000 : ℚ) : ℝ)
      spectralFlux := ((0 : ℚ) : ℝ)
      previousSpectrum := some spec5
      fluxHistory := [((0 : ℚ) : ℝ), ((0 : ℚ) : ℝ), ((0 : ℚ) : ℝ), ((0 : ℚ) : ℝ), ((0 : ℚ) : ℝ)]
      harmonicConfidence := 0 } : EngineState) none (JSNum.fin 0) c3f11.now = c3st11
  rw [((updateNoteState_sustain_none ({ c3st10 with
      envelope := ((11804413257/2000000000000 : ℚ) : ℝ)
      spectralFlux := ((0 : ℚ) : ℝ)
      previousSpectrum := some spec5
      fluxHistory := [((0 : ℚ) : ℝ), ((0 : ℚ) : ℝ), ((0 : ℚ) : ℝ), ((0 : ℚ) : ℝ), ((0 : ℚ) : ℝ)]
      harmonicConfidence := 0 } : EngineState) (JSNum.fin 0) c3f11.now rfl).2
      (by norm_num [RELEASE_THRESHOLD])).1
      (by norm_num [c3st10, RELEASE_HYSTERESIS_FRAMES])]
  rfl

theorem c3tick12 : (detectPitch 800 c3st11 c3f12).1 = c3st12 := by
  rw [detectPitch_run 800 c3st11 c3f12 rfl rfl]
  unfold tailState
  have henv : envFluxUpdate c3st11 c3f12 = ({ c3st11 with
      envelope := ((82630892799/20000000000000 : ℚ) : ℝ)
      spectralFlux := ((0 : ℚ) : ℝ)
      previousSpectrum := some spec5
      fluxHistory := [((0 : ℚ) : ℝ), ((0 : ℚ) : ℝ), ((0 : ℚ) : ℝ), ((0 : ℚ) : ℝ), ((0 : ℚ) : ℝ)] } : EngineState) := by
    unfold envFluxUpdate
    rw [show c3st11.previousSpectrum = some spec5 from rfl,
        show c3st11.fluxHistory = [((0 : ℚ) : ℝ), ((0 : ℚ) : ℝ), ((0 : ℚ) : ℝ), ((0 : ℚ) : ℝ), ((0 : ℚ) : ℝ)] from rfl,
        show c3f12.spectrum = spec5 from rfl,
        show c3f12.timeBuffer = zeroBuffer from rfl,
        rmsOf_zeroBuffer,
        calculateSpectralFlux_some spec5 spec5 [((0 : ℚ) : ℝ), ((0 : ℚ) : ℝ), ((0 : ℚ) : ℝ), ((0 : ℚ) : ℝ), ((0 : ℚ) : ℝ)] (0)
        (by norm_num [fluxSumSq, List.range_succ,
          show spec0 = ([0,0,0,0,0,0,0] : List ℕ) from rfl, spec3, spec4, spec5]) (by norm_num)]
    norm_num [EngineState.mk.injEq, c3st11, exStart, initState, FLUX_HISTORY_SIZE, envelopeSmoothing, List.tail]
  rw [henv,
      harmOf_of_yinNone (show yinPitch c3f12.timeBuffer 800 = none from
        yinPitch_replicate 14 0 800),
      show pitchInRange (yinPitch c3f12.timeBuffer 800) = (none, JSNum.fin 0) from by
        rw [show yinPitch c3f12.timeBuffer 800 = none from yinPitch_replicate 14 0 800]
        rfl]
  show updateNoteState ({ c3st11 with
      envelope := ((82630892799/20000000000000 : ℚ) : ℝ)
      spectralFlux := ((0 : ℚ) : ℝ)
      previousSpectrum := some spec5
      fluxHistory := [((0 : ℚ) : ℝ), ((0 : ℚ) : ℝ), ((0 : ℚ) : ℝ), ((0 : ℚ) : ℝ), ((0 : ℚ) : ℝ)]
      harmonicConfidence := 0 } : EngineState) none (JSNum.fin 0) c3f12.now = c3st12
  rw [((updateNoteState_sustain_none ({ c3st11 with
      envelope := ((82630892799/20000000000000 : ℚ) : ℝ)
      spectralFlux := ((0 : ℚ) : ℝ)
      previousSpectrum := some spec5
      fluxHistory := [((0 : ℚ) : ℝ), ((0 : ℚ) : ℝ), ((0 : ℚ) : ℝ), ((0 : ℚ) : ℝ), ((0 : ℚ) : ℝ)]
      harmonicConfidence := 0 } : EngineState) (JSNum.fin 0) c3f12.now rfl).2
      (by norm_num [RELEASE_THRESHOLD])).1
      (by norm_num [c3st11, RELEASE_HYSTERESIS_FRAMES])]
  rfl

theorem c3tick13 : (detectPitch 800 c3st12 c3f13).1 = c3st13 := by
  rw [detectPitch_run 800 c3st12 c3f13 rfl rfl]
  unfold tailState
  have henv : envFluxUpdate c3st12 c3f13 = ({ c3st12 with
      envelope := ((578416249593/200000000000000 : ℚ) : ℝ)
      spectralFlux := ((0 : ℚ) : ℝ)
      previousSpectrum := some spec5
      fluxHistory := [((0 : ℚ) : ℝ), ((0 : ℚ) : ℝ), ((0 : ℚ) : ℝ), ((0 : ℚ) : ℝ), ((0 : ℚ) : ℝ)] } : EngineState) := by
    unfold envFluxUpdate
    rw [show c3st12.previousSpectrum = some spec5 from rfl,
        show c3st12.fluxHistory = [((0 : ℚ) : ℝ), ((0 : ℚ) : ℝ), ((0 : ℚ) : ℝ), ((0 : ℚ) : ℝ), ((0 : ℚ) : ℝ)] from rfl,
        show c3f13.spectrum = spec5 from rfl,
        show c3f13.timeBuffer = zeroBuffer from rfl,
        rmsOf_zeroBuffer,
        calculateSpectralFlux_some spec5 spec5 [((0 : ℚ) : ℝ), ((0 : ℚ) : ℝ), ((0 : ℚ) : ℝ), ((0 : ℚ) : ℝ), ((0 : ℚ) : ℝ)] (0)
        (by norm_num [fluxSumSq, List.range_succ,
          show spec0 = ([0,0,0,0,0,0,0] : List ℕ) from rfl, spec3, spec4, spec5]) (by norm_num)]
    norm_num [EngineState.mk.injEq, c3st12, exStart, initState, FLUX_HISTORY_SIZE, envelopeSmoothing, List.tail]
  rw [henv,
      harmOf_of_yinNone (show yinPitch c3f13.timeBuffer 800 = none from
        yinPitch_replicate 14 0 800),
      show pitchInRange (yinPitch c3f13.timeBuffer 800) = (none, JSNum.fin 0) from by
        rw [show yinPitch c3f13.timeBuffer 800 = none from yinPitch_replicate 14 0 800]
        rfl]
  show updateNoteState ({ c3st12 with
      envelope := ((578416249593/200000000000000 : ℚ) : ℝ)
      spectralFlux := ((0 : ℚ) : ℝ)
      previousSpectrum := some spec5
      fluxHistory := [((0 : ℚ) : ℝ), ((0 : ℚ) : ℝ), ((0 : ℚ) : ℝ), ((0 : ℚ) : ℝ), ((0 : ℚ) : ℝ)]
      harmonicConfidence := 0 } : EngineState) none (JSNum.fin 0) c3f13.now = c3st13
  rw [((updateNoteState_sustain_none ({ c3st12 with
      envelope := ((578416249593/200000000000000 : ℚ) : ℝ)
      spectralFlux := ((0 : ℚ) : ℝ)
      previousSpectrum := some spec5
      fluxHistory := [((0 : ℚ) : ℝ), ((0 : ℚ) : ℝ), ((0 : ℚ) : ℝ), ((0 : ℚ) : ℝ), ((0 : ℚ) : ℝ)]
      harmonicConfidence := 0 } : EngineState) (JSNum.fin 0) c3f13.now rfl).2
      (by norm_num [RELEASE_THRESHOLD])).1
      (by norm_num [c3st12, RELEASE_HYSTERESIS_FRAMES])]
  rfl

theorem c3tick14 : (detectPitch 800 c3st13 c3f14).1 = c3st14 := by
  rw [detectPitch_run 800 c3st13 c3f14 rfl rfl]
  unfold tailState
  have henv : envFluxUpdate c3st13 c3f14 = ({ c3st13 with
      envelope := ((4048913747151/2000000000000000 : ℚ) : ℝ)
      spectralFlux := ((0 : ℚ) : ℝ)
      previousSpectrum := some spec5
      fluxHistory := [((0 : ℚ) : ℝ), ((0 : ℚ) : ℝ), ((0 : ℚ) : ℝ), ((0 : ℚ) : ℝ), ((0 : ℚ) : ℝ)] } : EngineState) := by
    unfold envFluxUpdate
    rw [show c3st13.previousSpectrum = some spec5 from rfl,
        show c3st13.fluxHistory = [((0 : ℚ) : ℝ), ((0 : ℚ) : ℝ), ((0 : ℚ) : ℝ), ((0 : ℚ) : ℝ), ((0 : ℚ) : ℝ)] from rfl,
        show c3f14.spectrum = spec5 from rfl,
        show c3f14.timeBuffer = zeroBuffer from rfl,
        rmsOf_zeroBuffer,
        calculateSpectralFlux_some spec5 spec5 [((0 : ℚ) : ℝ), ((0 : ℚ) : ℝ), ((0 : ℚ) : ℝ), ((0 : ℚ) : ℝ), ((0 : ℚ) : ℝ)] (0)
        (by norm_num [fluxSumSq, List.range_succ,
          show spec0 = ([0,0,0,0,0,0,0] : List ℕ) from rfl, spec3, spec4, spec5]) (by norm_num)]
    norm_num [EngineState.mk.injEq, c3st13, exStart, initState, FLUX_HISTORY_SIZE, envelopeSmoothing, List.tail]
  rw [henv,
      harmOf_of_yinNone (show yinPitch c3f14.timeBuffer 800 = none from
        yinPitch_replicate 14 0 800),
      show pitchInRange (yinPitch c3f14.timeBuffer 800) = (none, JSNum.fin 0) from by
        rw [show yinPitch c3f14.timeBuffer 800 = none from yinPitch_replicate 14 0 800]
        rfl]
  show updateNoteState ({ c3st13 with
      envelope := ((4048913747151/2000000000000000 : ℚ) : ℝ)
      spectralFlux := ((0 : ℚ) : ℝ)
      previousSpectrum := some spec5
      fluxHistory := [((0 : ℚ) : ℝ), ((0 : ℚ) : ℝ), ((0 : ℚ) : ℝ), ((0 : ℚ) : ℝ), ((0 : ℚ) : ℝ)]
      harmonicConfidence := 0 } : EngineState) none (JSNum.fin 0) c3f14.now = c3st14
  rw [((updateNoteState_sustain_none ({ c3st13 with
      envelope := ((4048913747151/2000000000000000 : ℚ) : ℝ)
      spectralFlux := ((0 : ℚ) : ℝ)
      previousSpectrum := some spec5
      fluxHistory := [((0 : ℚ) : ℝ), ((0 : ℚ) : ℝ), ((0 : ℚ) : ℝ), ((0 : ℚ) : ℝ), ((0 : ℚ) : ℝ)]
      harmonicConfidence := 0 } : EngineState) (JSNum.fin 0) c3f14.now rfl).2
      (by norm_num [RELEASE_THRESHOLD])).2
      (by norm_num [c3st13, RELEASE_HYSTERESIS_FRAMES])]
  rfl

theorem c3_reach : Reachable c3st14 := by
  have h0 : Reachable exStart := by
    have h := Reachable.start initState 800 Reachable.init
    rwa [show (start initState 800).2 = exStart from rfl] at h
  have h1 := Reachable.tick exStart 800 c3f1 h0
  rw [c3tick1] at h1
  have h2 := Reachable.tick c3st1 800 c3f2 h1
  rw [c3tick2] at h2
  have h3 := Reachable.tick c3st2 800 c3f3 h2
  rw [c3tick3] at h3
  have h4 := Reachable.tick c3st3 800 c3f4 h3
  rw [c3tick4] at h4
  have h5 := Reachable.tick c3st4 800 c3f5 h4
  rw [c3tick5] at h5
  have h6 := Reachable.tick c3st5 800 c3f6 h5
  rw [c3tick6] at h6
  have h7 := Reachable.tick c3st6 800 c3f7 h6
  rw [c3tick7] at h7
  have h8 := Reachable.tick c3st7 800 c3f8 h7
  rw [c3tick8] at h8
  have h9 := Reachable.tick c3st8 800 c3f9 h8
  rw [c3tick9] at h9
  have h10 := Reachable.tick c3st9 800 c3f10 h9
  rw [c3tick10] at h10
  have h11 := Reachable.tick c3st10 800 c3f11 h10
  rw [c3tick11] at h11
  have h12 := Reachable.tick c3st11 800 c3f12 h11
  rw [c3tick12] at h12
  have h13 := Reachable.tick c3st12 800 c3f13 h12
  rw [c3tick13] at h13
  have h14 := Reachable.tick c3st13 800 c3f14 h13
  rw [c3tick14] at h14
  exact h14

/-- C3 counterexample: the claimed invariant fails.  From a fresh start,
fourteen ordinary ticks (five warm onset frames, one pitched capture frame,
then silence) drive the engine into a reachable state whose detector phase
is RELEASE while the captured note candidate is still present: the RELEASE
branch clears the candidate only once the envelope has fallen below half
the release threshold and the minimum note duration has elapsed, so the
candidate routinely survives into RELEASE. -/
theorem C3_counterexample :
    ∃ st : EngineState, Reachable st ∧ st.noteState = .RELEASE ∧
      st.currentNote.isSome = true :=
  ⟨c3st14, c3_reach, rfl, rfl⟩

/-- C3 (amended): what does hold of the candidate: any newly captured
candidate passed the harmonic-confidence gate at capture time (after any
state-machine step, a present candidate either was already present before
the step or records a harmonic confidence above
`MIN_HARMONIC_CONFIDENCE`), and note EMISSION is confined to the ATTACK
and SUSTAIN phases (`emitNoteDetection` yields an event only there). -/
theorem C3_candidate_invariant :
    (∀ (st : EngineState) (pitch : Option ℚ) (conf : JSNum) (now : ℤ) (cn : CapturedNote),
        (updateNoteState st pitch conf now).currentNote = some cn →
        st.currentNote = some cn ∨ MIN_HARMONIC_CONFIDENCE < cn.harmonicConfidence) ∧
    (∀ st : EngineState, (emitNoteDetection st).isSome = true →
        st.noteState = .ATTACK ∨ st.noteState = .SUSTAIN) :=
  ⟨updateNoteState_currentNote, fun _ h => emitNoteDetection_isSome h⟩

/-- C3 witness: the amended invariant applied at concrete inputs: a
SUSTAIN state carrying a gate-passing captured note emits (emission part),
and a silent-frame update on that state keeps the candidate, which indeed
passed the gate (capture part). -/
theorem C3_witness :
    (c3wState.noteState = .ATTACK ∨ c3wState.noteState = .SUSTAIN) ∧
    (c3wState.currentNote = some (captureNote (110400/551) (JSNum.fin 1) (40/51)) ∨
      MIN_HARMONIC_CONFIDENCE <
        (captureNote (110400/551) (JSNum.fin 1) (40/51)).harmonicConfidence) :=
  ⟨C3_candidate_invariant.2 c3wState (by simp [emitNoteDetection, c3wState, initState]),
   C3_candidate_invariant.1 c3wState none (JSNum.fin 0) 0
     (captureNote (110400/551) (JSNum.fin 1) (40/51))
     (by
       rw [((updateNoteState_sustain_none c3wState (JSNum.fin 0) 0 rfl).2
             (by norm_num [c3wState, initState, RELEASE_THRESHOLD])).1
           (by norm_num [c3wState, initState, RELEASE_HYSTERESIS_FRAMES])]
       rfl)⟩

end Fretlearner
